
import Mathlib

/-!
Verification development for the Steam Defense tower-defense simulation core.

Each Python module relevant to the checked properties is shallowly embedded
as executable Lean definitions: pure functions become Lean functions,
stateful code threads explicit state records, Python `float` values are
modelled as exact rationals (with a dedicated type adding the `inf` point
where the source uses `float('inf')`), and Python `int(x)` truncation is
`Rat.floor`/truncation toward zero made explicit.  Definitions follow the
source files under `src/` clause by clause; deviations (dropped logging,
dropped wall-clock timing fields, dropped sprite/rendering state) are noted
in the doc comments of the definitions concerned.
-/

/-- Python float extended with positive infinity, as used by the source for
`movement_cost` and pathfinding costs (`float('inf')`).  Finite values are
exact rationals; the source never produces NaN or negative infinity on the
paths modelled here. -/
inductive PyFloat where
  | val (q : ℚ)
  | inf
deriving DecidableEq, Repr

/-- Addition on `PyFloat`: infinity absorbs. -/
def PyFloat.add : PyFloat → PyFloat → PyFloat
  | .val a, .val b => .val (a + b)
  | _, _ => .inf

/-- Strict comparison on `PyFloat`, matching IEEE comparisons with `inf`. -/
def PyFloat.ltb : PyFloat → PyFloat → Bool
  | .val a, .val b => decide (a < b)
  | .val _, .inf => true
  | .inf, _ => false

/-- Multiplication on `PyFloat` (used for custom cost modifiers); infinity
absorbs (all finite operands in the modelled paths are positive). -/
def PyFloat.mul : PyFloat → PyFloat → PyFloat
  | .val a, .val b => .val (a * b)
  | _, _ => .inf

-- ═══════════════════════════════════════════════════════════
-- src/world/grid.py
-- ═══════════════════════════════════════════════════════════

/-- Tile kinds of `world/grid.py` (`class TileType(Enum)`), with the same
numeric enum values. -/
inductive TileType where
  | EMPTY
  | PATH
  | WALL
  | SPAWN
  | BASE
  | DECORATION
  | BUILDABLE
  | WATER
  | BRIDGE
deriving DecidableEq, Repr

/-- Numeric value of each `TileType` member, as stored in the `tiles` array. -/
def TileType.toVal : TileType → Nat
  | .EMPTY => 0
  | .PATH => 1
  | .WALL => 2
  | .SPAWN => 3
  | .BASE => 4
  | .DECORATION => 5
  | .BUILDABLE => 6
  | .WATER => 7
  | .BRIDGE => 8

/-- `TileProperties` dataclass of `world/grid.py`.  The `custom_data` dict is
omitted: nothing in the embedded code paths ever writes to it (it stays the
empty dict created by `__post_init__`). -/
structure TileProperties where
  tile_type : TileType := .EMPTY
  is_walkable : Bool := true
  is_buildable : Bool := true
  movement_cost : PyFloat := .val 1
  elevation : ℚ := 0
  rotation : ℚ := 0
  variant : Int := 0
deriving DecidableEq, Repr

/-- `TileProperties.__post_init__`: derives the walkability/buildability
flags (and water movement cost) from `tile_type`.  In Python this runs only
when a `TileProperties` object is constructed. -/
def TileProperties.post_init (p : TileProperties) : TileProperties :=
  match p.tile_type with
  | .WALL => { p with is_walkable := false, is_buildable := false }
  | .PATH => { p with is_buildable := false }
  | .SPAWN => { p with is_buildable := false }
  | .BASE => { p with is_buildable := false }
  | .DECORATION => { p with is_buildable := false }
  | .WATER => { p with is_walkable := false, is_buildable := false, movement_cost := .inf }
  | _ => p

/-- Construction of `TileProperties(tile_type=t)` with all other fields left
at their dataclass defaults, followed by `__post_init__`. -/
def TileProperties.ofType (t : TileType) : TileProperties :=
  TileProperties.post_init { tile_type := t }

/-- The `Grid` class of `world/grid.py`.  `tiles` is the numpy `int8` array
indexed `[y, x]`, modelled as a total function defaulting to `EMPTY`;
`tile_properties` is the insertion-ordered dict, modelled as an association
list in insertion order.  Logging and the `metadata` timestamps (constants
`0.0` in the source) are carried verbatim where serialization needs them;
the lazily rebuilt walkable/buildable mask caches are replaced by the
`cache_dirty` flag alone, since the masks are recomputed from
`get_tile_properties` and carry no independent state. -/
structure Grid where
  width : Int
  height : Int
  tile_size : Int
  tiles : Int × Int → TileType
  tile_properties : List ((Int × Int) × TileProperties)
  cache_dirty : Bool

/-- `Grid.__init__(width, height, tile_size)`; the default tile size is
`GRID_CONFIG['TILE_SIZE'] = 32`. -/
def Grid.init (width height : Int) (tile_size : Int := 32) : Grid :=
  { width := width
    height := height
    tile_size := tile_size
    tiles := fun _ => .EMPTY
    tile_properties := []
    cache_dirty := true }

/-- `Grid.is_valid_position`. -/
def Grid.is_valid_position (g : Grid) (x y : Int) : Bool :=
  decide (0 ≤ x) && decide (x < g.width) && decide (0 ≤ y) && decide (y < g.height)

/-- `Grid.get_tile`: out-of-bounds reads return `WALL`. -/
def Grid.get_tile (g : Grid) (x y : Int) : TileType :=
  if g.is_valid_position x y then g.tiles (x, y) else .WALL

/-- Association-list lookup standing for `self.tile_properties[(x, y)]`. -/
def Grid.props_lookup (g : Grid) (x y : Int) : Option TileProperties :=
  (g.tile_properties.find? (fun e => e.1 = (x, y))).map (·.2)

/-- Replace the value stored under an existing key, keeping the dict's
insertion order (Python mutates the stored object in place). -/
def propsUpdate (l : List ((Int × Int) × TileProperties)) (k : Int × Int)
    (f : TileProperties → TileProperties) : List ((Int × Int) × TileProperties) :=
  l.map (fun e => if e.1 = k then (e.1, f e.2) else e)

/-- `Grid.set_tile`.  Out-of-bounds writes are ignored (logged warning in
the source).  If the cell has no properties entry yet, a **default**
`TileProperties()` (tile type `EMPTY`) is inserted, and then only its
`tile_type` field is overwritten — `__post_init__` does not run again, so
the boolean flags are left as they were. -/
def Grid.set_tile (g : Grid) (x y : Int) (tile_type : TileType) : Grid :=
  if g.is_valid_position x y then
    let g := { g with tiles := fun p => if p = (x, y) then tile_type else g.tiles p }
    let g :=
      if (g.props_lookup x y).isNone then
        { g with tile_properties :=
            g.tile_properties ++ [((x, y), TileProperties.post_init {})] }
      else g
    { g with
      tile_properties := propsUpdate g.tile_properties (x, y)
        (fun p => { p with tile_type := tile_type })
      cache_dirty := true }
  else g

/-- `Grid.get_tile_properties`.  Out of bounds returns a WALL-properties
object.  For an in-bounds cell with no stored entry the source lazily
creates (and memoizes) `TileProperties(tile_type=self.get_tile(x, y))`;
the memo write never changes any observable value, so this embedding
returns that default without threading the write. -/
def Grid.get_tile_properties (g : Grid) (x y : Int) : TileProperties :=
  if ¬ g.is_valid_position x y then
    TileProperties.post_init
      { tile_type := .WALL, is_walkable := false, is_buildable := false }
  else
    match g.props_lookup x y with
    | some p => p
    | none => TileProperties.ofType (g.get_tile x y)

/-- `Grid.set_tile_properties`: stores the given properties object as-is and
mirrors its tile type into the tiles array. -/
def Grid.set_tile_properties (g : Grid) (x y : Int) (p : TileProperties) : Grid :=
  if g.is_valid_position x y then
    let props :=
      if (g.props_lookup x y).isNone then g.tile_properties ++ [((x, y), p)]
      else propsUpdate g.tile_properties (x, y) (fun _ => p)
    { g with
      tile_properties := props
      tiles := fun q => if q = (x, y) then p.tile_type else g.tiles q
      cache_dirty := true }
  else g

/-- `Grid.is_walkable`. -/
def Grid.is_walkable (g : Grid) (x y : Int) : Bool :=
  (g.get_tile_properties x y).is_walkable

/-- `Grid.is_buildable`. -/
def Grid.is_buildable (g : Grid) (x y : Int) : Bool :=
  (g.get_tile_properties x y).is_buildable

/-- `Grid.get_movement_cost`. -/
def Grid.get_movement_cost (g : Grid) (x y : Int) : PyFloat :=
  (g.get_tile_properties x y).movement_cost

-- ═══════════════════════════════════════════════════════════
-- Claim C2
-- ═══════════════════════════════════════════════════════════

-- ═══════════════════════════════════════════════════════════
-- src/gameplay/entities/enemy.py
-- ═══════════════════════════════════════════════════════════

/-- Python `int(x)` applied to a float/rational: truncation toward zero. -/
def truncQ (q : ℚ) : Int :=
  if 0 ≤ q then Rat.floor q else -(Rat.floor (-q))

/-- Damage types used by `Enemy.take_damage`'s
`getattr(self.stats, f"{damage_type}_resistance", 0.0)` lookup. -/
inductive DamageType where
  | physical
  | fire
  | electric
  | ice
deriving DecidableEq, Repr

/-- `EnemyStats` dataclass (resistances as exact rationals). -/
structure EnemyStats where
  max_health : Int
  speed : ℚ
  armor : Int
  reward : Int
  physical_resistance : ℚ := 0
  fire_resistance : ℚ := 0
  electric_resistance : ℚ := 0
  ice_resistance : ℚ := 0
  is_flying : Bool := false
  can_regenerate : Bool := false
  explosion_damage : Int := 0
  explosion_radius : ℚ := 0
deriving DecidableEq, Repr

/-- The `getattr(stats, f"{t}_resistance", 0.0)` dynamic attribute read. -/
def EnemyStats.resistance (s : EnemyStats) : DamageType → ℚ
  | .physical => s.physical_resistance
  | .fire => s.fire_resistance
  | .electric => s.electric_resistance
  | .ice => s.ice_resistance

/-- One damage-over-time effect entry of `HealthComponent`. -/
structure DotEffect where
  damage_per_second : Int
  remaining_time : ℚ
  damage_type : DamageType
  next_tick : ℚ
deriving DecidableEq, Repr

/-- `HealthComponent` of `enemy.py`.  Note that `__init__` sets `armor = 0`
and nothing in the source ever copies `stats.armor` into it. -/
structure HealthComponent where
  max_health : Int
  current_health : Int
  armor : Int := 0
  is_alive : Bool := true
  damage_over_time_effects : List DotEffect := []
deriving DecidableEq, Repr

/-- `HealthComponent.__init__(max_health)`. -/
def HealthComponent.init (max_health : Int) : HealthComponent :=
  { max_health := max_health, current_health := max_health }

/-- `HealthComponent.take_damage`: armor applied here, damage floored at 1
after armor, health clamped at 0; returns `(is_dead, updated component)`. -/
def HealthComponent.take_damage (h : HealthComponent) (damage : Int) :
    Bool × HealthComponent :=
  if h.is_alive = false then (true, h)
  else
    let effective_damage := max 1 (damage - h.armor)
    let current := h.current_health - effective_damage
    if current ≤ 0 then
      (true, { h with current_health := 0, is_alive := false })
    else
      (false, { h with current_health := current })

/-- Enemy lifecycle states (`EnemyState`). -/
inductive EnemyState where
  | SPAWNING
  | MOVING
  | ATTACKING
  | STUNNED
  | SLOWED
  | DYING
  | DEAD
deriving DecidableEq, Repr

/-- Enemy kinds (`EnemyType`). -/
inductive EnemyType where
  | STEAM_SOLDIER
  | SKY_ZEPPELIN
  | STEAM_TANK
  | LIGHTNING_DRONE
  | STEEL_SPIDER
  | IRON_GOLEM
  | CYBER_SURVIVOR
deriving DecidableEq, Repr

/-- Movement state of an enemy (`MovementComponent` of `enemy.py`),
restricted to the fields the damage/status paths touch; the path-following
position update is not needed by the checked claims. -/
structure EnemyMovement where
  base_speed : ℚ
  current_speed : ℚ
  position : ℚ × ℚ := (0, 0)
  speed_modifiers : List (ℚ × ℚ × String) := []
  is_stunned : Bool := false
  stun_duration : ℚ := 0
deriving DecidableEq, Repr

/-- `MovementComponent.stun`. -/
def EnemyMovement.stun (m : EnemyMovement) (duration : ℚ) : EnemyMovement :=
  { m with is_stunned := true, stun_duration := max m.stun_duration duration }

/-- `MovementComponent.add_speed_modifier`: appends a
`(multiplier, remaining_time, source)` entry. -/
def EnemyMovement.add_speed_modifier (m : EnemyMovement)
    (multiplier duration : ℚ) (source : String) : EnemyMovement :=
  { m with speed_modifiers := m.speed_modifiers ++ [(multiplier, duration, source)] }

/-- `HealthComponent.add_damage_over_time`: appends a DoT entry with a
1-second tick phase. -/
def HealthComponent.add_damage_over_time (h : HealthComponent)
    (damage_per_second : Int) (duration : ℚ) (damage_type : DamageType) :
    HealthComponent :=
  { h with damage_over_time_effects := h.damage_over_time_effects ++
      [{ damage_per_second := damage_per_second, remaining_time := duration,
         damage_type := damage_type, next_tick := 1 }] }

/-- The `Enemy` entity: stats plus the components relevant to damage,
status effects and death (sprite/rendering state omitted). -/
structure Enemy where
  enemy_type : EnemyType
  stats : EnemyStats
  health : HealthComponent
  movement : EnemyMovement
  status_effects : List (String × ℚ) := []
  state : EnemyState := .SPAWNING
  behavior_timer : ℚ := 0
  damage_flash_timer : ℚ := 0
  spawn_animation_timer : ℚ := 1
deriving DecidableEq, Repr

/-- `StatusEffectComponent.add_effect`: stores `(duration, remaining_time)`
under the effect name, replacing an existing entry in place or appending a
new one; extra keyword parameters are consumed by `Enemy.apply_effect`
below and are not stored here (they are never read back from the dict). -/
def statusAddEffect (effects : List (String × ℚ)) (effect_type : String)
    (duration : ℚ) : List (String × ℚ) :=
  if (effects.find? (fun e => e.1 = effect_type)).isSome then
    effects.map (fun e => if e.1 = effect_type then (e.1, duration) else e)
  else effects ++ [(effect_type, duration)]

/-- `Enemy._on_death`: switches to the DYING state.  (For a Steam Tank with
positive explosion damage the source additionally emits an
`enemy_explosion` event; event delivery is outside the enemy state and not
needed by the claims over `take_damage`.) -/
def Enemy.on_death (e : Enemy) : Enemy :=
  { e with state := .DYING }

/-- `Enemy.take_damage(damage, damage_type)`: on a dead enemy returns `True`
immediately (before any field is touched); otherwise applies the resistance
multiplier with Python `int()` truncation, sets the damage flash timer, and
delegates to `HealthComponent.take_damage`.  Returns
`(is_dead, updated enemy)`. -/
def Enemy.take_damage (e : Enemy) (damage : Int) (damage_type : DamageType) :
    Bool × Enemy :=
  if e.health.is_alive = false then (true, e)
  else
    let resistance := e.stats.resistance damage_type
    let effective_damage := truncQ ((damage : ℚ) * (1 - resistance))
    let e := { e with damage_flash_timer := 1/5 }
    let r := e.health.take_damage effective_damage
    if r.1 then ((true : Bool), { e.on_death with health := r.2 })
    else ((false : Bool), { e with health := r.2 })

-- ═══════════════════════════════════════════════════════════
-- Claims C3 and C10
-- ═══════════════════════════════════════════════════════════

/-- The HP-loss formula exactly as claim C3 states it (spec wording):
`effective = damage × (1 − resistance)` floored at 1 before armor, then
`final = max(1, effective − armor)` — with no `int()` truncation. -/
def claimedHpLossC3 (damage : Int) (resistance armor : ℚ) : ℚ :=
  max 1 (max 1 ((damage : ℚ) * (1 - resistance)) - armor)

/-- A live Steam-Soldier-like test enemy with 100 HP used as the concrete
damage-application subject. -/
def testEnemyC3 : Enemy :=
  { enemy_type := .STEAM_SOLDIER
    stats := { max_health := 100, speed := 60, armor := 5, reward := 10,
               physical_resistance := 1/4 }
    health := HealthComponent.init 100
    movement := { base_speed := 60, current_speed := 60 } }

-- ═══════════════════════════════════════════════════════════
-- src/gameplay/entities/tower.py — stats and attack cooldown
-- ═══════════════════════════════════════════════════════════

/-- `TowerStats` dataclass of `tower.py` (floats as exact rationals). -/
structure TowerStats where
  cost : Int
  damage : Int
  range : ℚ
  attack_speed : ℚ
  projectile_speed : ℚ
  area_damage : Bool := false
  area_radius : ℚ := 0
  pierce_count : Int := 0
  chain_count : Int := 0
  can_target_ground : Bool := true
  can_target_air : Bool := true
  slow_effect : ℚ := 0
  slow_duration : ℚ := 0
  stun_duration : ℚ := 0
  burn_damage : Int := 0
  burn_duration : ℚ := 0
deriving DecidableEq, Repr

/-- `LIGHTNING_TOWER` base stats from `Tower._load_tower_stats`. -/
def lightningTowerStats : TowerStats :=
  { cost := 80, damage := 80, range := 80, attack_speed := 6/5,
    projectile_speed := 1000, chain_count := 3, stun_duration := 2 }

/-- `STEAM_CANNON` base stats from `Tower._load_tower_stats`. -/
def steamCannonStats : TowerStats :=
  { cost := 50, damage := 120, range := 96, attack_speed := 4/5,
    projectile_speed := 300, area_damage := true, area_radius := 32 }

/-- `AttackComponent` of `tower.py`, restricted to its own timer fields.
The `target` field and the line of `update` that clears an invalid target
read the enemy world and are not needed by the cooldown claim; the
`recent_targets` id set is kept as a list of entity ids. -/
structure AttackComponent where
  stats : TowerStats
  attack_timer : ℚ := 0
  recent_targets : List Nat := []
  target_history_duration : ℚ := 2
  target_history_timer : ℚ := 0
deriving DecidableEq, Repr

/-- `AttackComponent.can_attack`: the tower may fire when the timer has
reached (or passed) zero. -/
def AttackComponent.can_attack (c : AttackComponent) : Bool :=
  decide (c.attack_timer ≤ 0)

/-- `AttackComponent.start_attack`: on a ready tower, reloads the timer to
`1.0 / stats.attack_speed`. -/
def AttackComponent.start_attack (c : AttackComponent) : AttackComponent :=
  if c.can_attack then { c with attack_timer := 1 / c.stats.attack_speed }
  else c

/-- `AttackComponent.update(delta_time)`: subtracts `delta_time` from the
timer only while it is positive (no clamping), and maintains the
recent-target history window. -/
def AttackComponent.update (c : AttackComponent) (delta_time : ℚ) : AttackComponent :=
  let c :=
    if c.attack_timer > 0 then { c with attack_timer := c.attack_timer - delta_time }
    else c
  let c := { c with target_history_timer := c.target_history_timer + delta_time }
  if c.target_history_timer ≥ c.target_history_duration then
    { c with recent_targets := [], target_history_timer := 0 }
  else c

-- ═══════════════════════════════════════════════════════════
-- Claim C5
-- ═══════════════════════════════════════════════════════════

-- ═══════════════════════════════════════════════════════════
-- src/core/event_system.py
-- ═══════════════════════════════════════════════════════════

/-- `EventPriority` enum. -/
inductive EventPriority where
  | LOW
  | NORMAL
  | HIGH
  | CRITICAL
deriving DecidableEq, Repr

/-- Numeric `value` of each `EventPriority` member. -/
def EventPriority.value : EventPriority → Nat
  | .LOW => 0
  | .NORMAL => 1
  | .HIGH => 2
  | .CRITICAL => 3

/-- The `Event` dataclass.  The wall-clock `timestamp` that
`__post_init__` fills in from `time.time()` does not influence dispatch
and is left at its default `0.0`; the payload is abstracted to an optional
numeric id. -/
structure Event where
  event_type : String
  data : Option Nat := none
  priority : EventPriority := .NORMAL
  source : Option String := none
  target : Option String := none
deriving DecidableEq, Repr

/-- An `EventListener`.  The Python callback is abstracted to a numeric
handler id; invoking the listener appends that id to the system's call
log.  The weak-reference machinery is modelled by the `dead` flag
(`get_callback()` returning `None`); optional filters always pass (no
claim exercises them), and the per-listener `call_count`/`last_called`
bookkeeping is dropped as unobserved. -/
structure EventListener where
  handler : Nat
  priority : EventPriority := .NORMAL
  once : Bool := false
  dead : Bool := false
deriving DecidableEq, Repr

/-- Dispatch-relevant state of `EventSystem`, without the two event queues
(the queues are threaded separately so that the queue drains of
`process_events` are structurally recursive; `_process_event` itself never
touches the queues because the modelled handlers are passive observers).
The resolved-listener cache (`listener_cache`/`cache_dirty`) is semantically
transparent — it always equals the flattening that `_rebuild_cache`
computes — and is modelled by recomputing that flattening. -/
structure EventCore where
  listeners : List (String × List (EventPriority × List EventListener))
  events_sent : Nat := 0
  events_processed : Nat := 0
  listeners_called : Nat := 0
  failed_calls : Nat := 0
  max_recursion_depth : Nat := 10
  current_recursion_depth : Nat := 0
  call_log : List Nat := []
deriving Repr

/-- `EventSystem.subscribe`: appends the listener to the per-type,
per-priority bucket (creating buckets in first-touch order, as the nested
`defaultdict` does). -/
def EventCore.subscribe (s : EventCore) (event_type : String)
    (l : EventListener) : EventCore :=
  let rec addToType (buckets : List (EventPriority × List EventListener)) :
      List (EventPriority × List EventListener) :=
    match buckets with
    | [] => [(l.priority, [l])]
    | (p, ls) :: rest =>
      if p = l.priority then (p, ls ++ [l]) :: rest else (p, ls) :: addToType rest
  let rec addToMap (m : List (String × List (EventPriority × List EventListener))) :
      List (String × List (EventPriority × List EventListener)) :=
    match m with
    | [] => [(event_type, addToType [])]
    | (t, b) :: rest =>
      if t = event_type then (t, addToType b) :: rest else (t, b) :: addToMap rest
  { s with listeners := addToMap s.listeners }

/-- `EventSystem.unsubscribe(event_type, listener=l)`: removes the given
listener (identified here by handler id) from every priority bucket of the
event type. -/
def EventCore.unsubscribe (s : EventCore) (event_type : String) (h : Nat) :
    EventCore :=
  { s with listeners := s.listeners.map (fun tb =>
      if tb.1 = event_type then
        (tb.1, tb.2.map (fun pb => (pb.1, pb.2.filter (fun l => l.handler ≠ h))))
      else tb) }

/-- `EventSystem._rebuild_cache` flattening for one event type: concatenate
the priority buckets in their insertion order and drop dead listeners. -/
def EventCore.listeners_for (s : EventCore) (event_type : String) :
    List EventListener :=
  match s.listeners.find? (fun tb => tb.1 = event_type) with
  | none => []
  | some (_, buckets) =>
    ((buckets.map Prod.snd).flatten).filter (fun l => l.dead = false)

/-- `EventSystem._process_event`: bumps the recursion depth, sorts the
resolved listeners by priority value descending (Python `sorted` with
`reverse=True` is stable, as is `List.mergeSort`), calls each live one —
recorded by appending its handler id to `call_log` — and finally removes
`once` listeners and dead listeners, then counts the event processed. -/
def EventCore.process_event (s : EventCore) (e : Event) : EventCore :=
  let s := { s with current_recursion_depth := s.current_recursion_depth + 1 }
  let ls := s.listeners_for e.event_type
  let s :=
    if ls.isEmpty then s
    else
      let sorted_listeners :=
        ls.mergeSort (fun a b => b.priority.value ≤ a.priority.value)
      let step := fun (acc : EventCore × List EventListener) (l : EventListener) =>
        let (s, to_remove) := acc
        if l.dead then
          ({ s with failed_calls := s.failed_calls + 1 }, to_remove ++ [l])
        else
          let s := { s with call_log := s.call_log ++ [l.handler],
                            listeners_called := s.listeners_called + 1 }
          (s, if l.once then to_remove ++ [l] else to_remove)
      let (s, to_remove) := sorted_listeners.foldl step (s, [])
      let s := to_remove.foldl (fun s l => s.unsubscribe e.event_type l.handler) s
      { s with events_processed := s.events_processed + 1 }
  { s with current_recursion_depth := s.current_recursion_depth - 1 }

/-- Full `EventSystem` state: the dispatch core plus the two event queues
and the re-entrancy flag.  `event_queue` is the bounded deque
(`maxlen = max_event_queue_size`, default 1000): appending at capacity
drops the oldest entry. -/
structure EventSystem where
  core : EventCore
  event_queue : List Event := []
  max_event_queue_size : Nat := 1000
  immediate_events : List Event := []
  processing_events : Bool := false
deriving Repr

/-- `deque.append` on a deque with `maxlen`. -/
def boundedAppend (q : List Event) (maxlen : Nat) (e : Event) : List Event :=
  if q.length ≥ maxlen then q.tail ++ [e] else q ++ [e]

/-- `EventSystem.emit`: **as written in the source** — when
`immediate or depth < max_recursion_depth` holds, an `immediate=True`
event is appended to `immediate_events` (to be handled by the next
`process_events` call) while an `immediate=False` event is dispatched
inline via `_process_event`; only when the recursion depth is exhausted
(and `immediate` is false) is the event put on the main queue. -/
def EventSystem.emit (s : EventSystem) (event_type : String)
    (data : Option Nat := none) (priority : EventPriority := .NORMAL)
    (immediate : Bool := false) : EventSystem :=
  let e : Event := { event_type := event_type, data := data, priority := priority }
  let s := { s with core := { s.core with events_sent := s.core.events_sent + 1 } }
  if immediate ∨ s.core.current_recursion_depth < s.core.max_recursion_depth then
    if immediate then { s with immediate_events := s.immediate_events ++ [e] }
    else { s with core := s.core.process_event e }
  else
    { s with event_queue := boundedAppend s.event_queue s.max_event_queue_size e }

/-- Drain of the `immediate_events` list inside `process_events` (the
modelled handlers never append events, so the list only shrinks). -/
def EventCore.drain (c : EventCore) (q : List Event) : EventCore :=
  match q with
  | [] => c
  | e :: rest => EventCore.drain (c.process_event e) rest

/-- `EventSystem.process_events`: returns immediately when re-entered,
otherwise drains `immediate_events` first and then the main queue. -/
def EventSystem.process_events (s : EventSystem) : EventSystem :=
  if s.processing_events then s
  else
    let core := s.core.drain s.immediate_events
    let core := core.drain s.event_queue
    { s with core := core, immediate_events := [], event_queue := [],
             processing_events := false }

-- ═══════════════════════════════════════════════════════════
-- Claim C1
-- ═══════════════════════════════════════════════════════════

/-- A fresh event system with a single live NORMAL-priority subscriber
(handler id 7) to event type `"evt"`. -/
def eventSystemC1 : EventSystem :=
  { core := EventCore.subscribe { listeners := [] } "evt" { handler := 7 } }

-- ═══════════════════════════════════════════════════════════
-- src/gameplay/entities/tower.py — lightning attack (C4)
-- ═══════════════════════════════════════════════════════════

/-- Squared Euclidean distance.  The source compares
`math.sqrt(dx**2 + dy**2)` against thresholds; every such comparison is
modelled by the exactly equivalent comparison of squares, keeping the
embedding inside ℚ. -/
def dist2 (a b : ℚ × ℚ) : ℚ :=
  (a.1 - b.1) ^ 2 + (a.2 - b.2) ^ 2

/-- `Enemy.is_alive`. -/
def Enemy.is_alive (e : Enemy) : Bool :=
  e.health.is_alive

/-- `Enemy.apply_effect(effect_type, duration, **params)`: records the
effect and dispatches the slow/stun/burn/freeze side effects exactly as the
source does (default parameter values are the source's `params.get`
defaults). -/
def Enemy.apply_effect (e : Enemy) (effect_type : String) (duration : ℚ)
    (speed_multiplier : ℚ := 1/2) (damage_per_second : Int := 10) : Enemy :=
  let e := { e with status_effects := statusAddEffect e.status_effects effect_type duration }
  if effect_type = "slow" then
    { e with movement := e.movement.add_speed_modifier speed_multiplier duration "slow_effect" }
  else if effect_type = "stun" then
    { e with movement := e.movement.stun duration }
  else if effect_type = "burn" then
    { e with health := e.health.add_damage_over_time damage_per_second duration .fire }
  else if effect_type = "freeze" then
    { e with movement := e.movement.add_speed_modifier (1/10) duration "freeze_effect" }
  else e

/-- Apply `Enemy.take_damage` to the enemy at index `i` of a list
(enemy object identity is modelled by list position, which no code path
here reorders). -/
def applyDamageAt (enemies : List Enemy) (i : Nat) (damage : Int)
    (t : DamageType) : List Enemy :=
  match enemies.get? i with
  | some e => enemies.set i (e.take_damage damage t).2
  | none => enemies

/-- Apply `Enemy.apply_effect` to the enemy at index `i` of a list. -/
def applyEffectAt (enemies : List Enemy) (i : Nat) (effect_type : String)
    (duration : ℚ) : List Enemy :=
  match enemies.get? i with
  | some e => enemies.set i (e.apply_effect effect_type duration)
  | none => enemies

/-- Modelled from the spec: `Tower._find_nearest_enemy_for_chain` is left as
a placeholder in the source (`return None  # Placeholder`, with only the
docstring "Recherche dans un rayon de 64 pixels"); per §4.7 of the spec the
intended behaviour is to "search for next-nearest live enemy within 64
units not yet hit".  This definition returns the index of the live enemy
closest to the current target's position, within 64 world units, whose
index is not in `already_hit`; among equidistant candidates the earliest in
the list wins. -/
def find_nearest_enemy_for_chain (enemies : List Enemy) (current_pos : ℚ × ℚ)
    (already_hit : List Nat) : Option Nat :=
  let step := fun (best : Option (Nat × ℚ)) (ie : Nat × Enemy) =>
    let d2 := dist2 ie.2.movement.position current_pos
    if ie.2.is_alive && !(already_hit.contains ie.1) && decide (d2 ≤ 64 ^ 2) then
      match best with
      | none => some (ie.1, d2)
      | some (_, bd) => if d2 < bd then some (ie.1, d2) else best
    else best
  (enemies.enum.foldl step none).map (·.1)

/-- The chain loop of `Tower._lightning_attack`: up to `chain_count`
iterations; iteration `i` (0-based) finds the next chain target and deals
it `int(damage * 0.8 ** (i + 1))` electric damage — with **no stun** —
then continues from it.  Alongside the updated enemies it returns the
`targets_hit` list as `(index, damage passed to take_damage)` pairs; the
damage component instruments the exact argument of each `take_damage`
call. -/
def enemyPosAt (enemies : List Enemy) (i : Nat) : ℚ × ℚ :=
  match enemies.get? i with
  | some e => e.movement.position
  | none => (0, 0)

def lightningChain (stats : TowerStats) :
    Nat → Nat → Nat → List (Nat × Int) → List Enemy → List Enemy × List (Nat × Int)
  | 0, _, _, hit, enemies => (enemies, hit)
  | k + 1, i, currentIdx, hit, enemies =>
    match find_nearest_enemy_for_chain enemies (enemyPosAt enemies currentIdx) (hit.map (·.1)) with
    | none => (enemies, hit)
    | some nextIdx =>
      let chain_damage := truncQ ((stats.damage : ℚ) * (4/5) ^ (i + 1))
      let enemies := applyDamageAt enemies nextIdx chain_damage .electric
      lightningChain stats k (i + 1) nextIdx (hit ++ [(nextIdx, chain_damage)]) enemies

/-- `Tower._lightning_attack`: deals full damage to the primary target,
stuns it (and only it) when `stun_duration > 0`, then runs the chain loop.
The `lightning_effect` event payload (hit positions) is recoverable from
the returned hit list and is not separately modelled. -/
def Tower.lightning_attack (current_stats : TowerStats) (targetIdx : Nat)
    (enemies : List Enemy) : List Enemy × List (Nat × Int) :=
  lightningChain current_stats current_stats.chain_count.toNat 0 targetIdx
    [(targetIdx, current_stats.damage)]
    (if 0 < current_stats.stun_duration then
      applyEffectAt (applyDamageAt enemies targetIdx current_stats.damage .electric)
        targetIdx "stun" current_stats.stun_duration
     else applyDamageAt enemies targetIdx current_stats.damage .electric)

/-- A live Steam Soldier standing at `pos`, as spawned at level 1. -/
def soldierAt (pos : ℚ × ℚ) : Enemy :=
  { enemy_type := .STEAM_SOLDIER
    stats := { max_health := 100, speed := 60, armor := 5, reward := 10,
               fire_resistance := 1/5 }
    health := HealthComponent.init 100
    movement := { base_speed := 60, current_speed := 60, position := pos }
    state := .MOVING }

-- ═══════════════════════════════════════════════════════════
-- src/gameplay/entities/projectile.py
-- ═══════════════════════════════════════════════════════════

/-- Fueled binary-search integer square root (kernel-evaluable, unlike the
well-founded `Nat.sqrt`); the search executes at most `log₂ n` of the
`fuel` steps, and `isqrt` supplies `n` itself as fuel. -/
def isqrtGo (n : Nat) : Nat → Nat → Nat → Nat
  | 0, lo, _ => lo
  | fuel + 1, lo, hi =>
    if hi ≤ lo then lo
    else
      let mid := (lo + hi + 1) / 2
      if mid * mid ≤ n then isqrtGo n fuel mid hi
      else isqrtGo n fuel lo (mid - 1)

/-- Integer square root: the largest `r` with `r * r ≤ n`. -/
def isqrt (n : Nat) : Nat :=
  isqrtGo n n 0 n

/-- Exact rational square root: returns the positive root when the operand
is the square of a rational and `0` otherwise.  The embedding only ever
evaluates it at perfect squares (axis-aligned shots); where the source
would produce an irrational float the claims never evaluate the model, and
all threshold comparisons of distances are done on squares via `dist2`. -/
def sqrtQ (q : ℚ) : ℚ :=
  let rn := isqrt q.num.natAbs
  let rd := isqrt q.den
  if rn * rn = q.num.natAbs ∧ rd * rd = q.den ∧ 0 ≤ q.num then
    (rn : ℚ) / (rd : ℚ)
  else 0

/-- Projectile kinds (`ProjectileType`).  `ICE_CRYSTAL` (the only homing
projectile) is omitted: homing motion is driven by `atan2`/`cos`/`sin`,
which have no exact rational embedding, and no claim exercises it. -/
inductive ProjectileType where
  | CANNONBALL
  | LIGHTNING_BOLT
  | FLAME_BURST
  | BULLET
  | MORTAR_SHELL
  | SNIPER_BULLET
  | MINE
deriving DecidableEq, Repr

/-- Projectile movement kinds (without `HOMING`, see `ProjectileType`). -/
inductive ProjMovementType where
  | LINEAR
  | BALLISTIC
  | INSTANT
  | STATIC
deriving DecidableEq, Repr

/-- `Projectile._get_movement_type`. -/
def projMovementType : ProjectileType → ProjMovementType
  | .CANNONBALL => .LINEAR
  | .LIGHTNING_BOLT => .INSTANT
  | .FLAME_BURST => .LINEAR
  | .BULLET => .LINEAR
  | .MORTAR_SHELL => .BALLISTIC
  | .SNIPER_BULLET => .LINEAR
  | .MINE => .STATIC

/-- `MovementComponent` of `projectile.py` (visual trail length constants
included; the homing-only fields `homing_strength`/`max_turn_rate` are
omitted with `HOMING` itself). -/
structure ProjMovement where
  movement_type : ProjMovementType
  speed : ℚ
  position : ℚ × ℚ := (0, 0)
  velocity : ℚ × ℚ := (0, 0)
  target_position : Option (ℚ × ℚ) := none
  start_position : ℚ × ℚ := (0, 0)
  gravity : ℚ := 500
  has_hit : Bool := false
  travel_time : ℚ := 0
  max_travel_time : ℚ := 10
  position_history : List (ℚ × ℚ) := []
  max_history_length : Nat := 10
deriving DecidableEq, Repr

/-- `MovementComponent._setup_linear_movement`. -/
def ProjMovement.setup_linear (m : ProjMovement) : ProjMovement :=
  match m.target_position with
  | none => m
  | some t =>
    let dx := t.1 - m.start_position.1
    let dy := t.2 - m.start_position.2
    let distance := sqrtQ (dx * dx + dy * dy)
    if 0 < distance then
      { m with velocity := ((dx / distance) * m.speed, (dy / distance) * m.speed) }
    else m

/-- `MovementComponent._setup_ballistic_movement` (computed with the
component's current `gravity`, which at `set_target` time is still the
default 500 — the mortar's 800 is installed afterwards by
`_setup_special_properties`). -/
def ProjMovement.setup_ballistic (m : ProjMovement) : ProjMovement :=
  match m.target_position with
  | none => m
  | some t =>
    let dx := t.1 - m.start_position.1
    let dy := t.2 - m.start_position.2
    let distance := sqrtQ (dx * dx + dy * dy)
    if 0 < distance then
      let travel_time := distance / m.speed
      let vx := dx / travel_time
      let vy := dy / travel_time + (1/2) * m.gravity * travel_time
      { m with velocity := (vx, vy) }
    else m

/-- `MovementComponent._setup_instant_movement`. -/
def ProjMovement.setup_instant (m : ProjMovement) : ProjMovement :=
  let m := { m with has_hit := true }
  match m.target_position with
  | none => m
  | some t => { m with position := t }

/-- `MovementComponent.set_target`. -/
def ProjMovement.set_target (m : ProjMovement) (start_pos target_pos : ℚ × ℚ) :
    ProjMovement :=
  let m := { m with start_position := start_pos, position := start_pos,
                    target_position := some target_pos }
  match m.movement_type with
  | .LINEAR => m.setup_linear
  | .BALLISTIC => m.setup_ballistic
  | .INSTANT => m.setup_instant
  | .STATIC => m

/-- `MovementComponent._update_linear_movement`: advance along the fixed
velocity; snap-and-hit when within 5 units of the target (compared on
squared distances). -/
def ProjMovement.update_linear (m : ProjMovement) (dt : ℚ) : ProjMovement :=
  let m := { m with position := (m.position.1 + m.velocity.1 * dt,
                                 m.position.2 + m.velocity.2 * dt) }
  match m.target_position with
  | none => m
  | some t =>
    if dist2 m.position t < 5 ^ 2 then
      { m with position := t, has_hit := true }
    else m

/-- `MovementComponent._update_ballistic_movement`. -/
def ProjMovement.update_ballistic (m : ProjMovement) (dt : ℚ) : ProjMovement :=
  let new_x := m.position.1 + m.velocity.1 * dt
  let new_y := m.position.2 + m.velocity.2 * dt
  let m := { m with velocity := (m.velocity.1, m.velocity.2 - m.gravity * dt),
                    position := (new_x, new_y) }
  match m.target_position with
  | none => m
  | some t =>
    if m.position.2 ≤ t.2 ∧ |m.position.1 - t.1| < 20 then
      { m with position := t, has_hit := true }
    else m

/-- `MovementComponent.update` of `projectile.py`: nothing once hit; the
travel-time cap **sets `has_hit = True`** and returns; otherwise the
position history ring is appended and the per-kind motion runs (`INSTANT`
spawns already hit and `STATIC` has no motion arm, matching the source's
dispatch). -/
def ProjMovement.update (m : ProjMovement) (dt : ℚ) : ProjMovement :=
  if m.has_hit then m
  else
    let m := { m with travel_time := m.travel_time + dt }
    if m.travel_time ≥ m.max_travel_time then { m with has_hit := true }
    else
      let hist := m.position_history ++ [m.position]
      let hist := if hist.length > m.max_history_length then hist.tail else hist
      let m := { m with position_history := hist }
      match m.movement_type with
      | .LINEAR => m.update_linear dt
      | .BALLISTIC => m.update_ballistic dt
      | .INSTANT => m
      | .STATIC => m

/-- The `Projectile` entity (sprite and `EffectsComponent` visuals
omitted); `events` logs the event types emitted via `emit_event`. -/
structure Projectile where
  projectile_type : ProjectileType
  damage : Int
  tower_stats : TowerStats
  movement : ProjMovement
  is_active : Bool := true
  has_exploded : Bool := false
  events : List String := []
deriving DecidableEq, Repr

/-- `Projectile.__init__`: build the movement component, aim it, then apply
`_setup_special_properties` (mortar gravity 800 — after aiming, as in the
source). -/
def Projectile.init (pt : ProjectileType) (start_position target_position : ℚ × ℚ)
    (damage : Int) (speed : ℚ) (tower_stats : TowerStats) : Projectile :=
  let m : ProjMovement := { movement_type := projMovementType pt, speed := speed }
  let m := m.set_target start_position target_position
  let m := if pt = .MORTAR_SHELL then { m with gravity := 800 } else m
  { projectile_type := pt, damage := damage, tower_stats := tower_stats,
    movement := m }

/-- `Projectile._trigger_impact`: marks the projectile exploded and emits
the `projectile_impact` event (payload: position, damage, area radius). -/
def Projectile.trigger_impact (p : Projectile) : Projectile :=
  { p with has_exploded := true, events := p.events ++ ["projectile_impact"] }

/-- `Projectile.update`: advances the movement then fires `_trigger_impact`
the first time `has_hit` is observed — including when `has_hit` was set by
the travel-time cap. -/
def Projectile.update (p : Projectile) (dt : ℚ) : Projectile :=
  if p.is_active = false then p
  else
    let p := { p with movement := p.movement.update dt }
    if p.movement.has_hit ∧ p.has_exploded = false then p.trigger_impact else p

/-- `Projectile.has_hit_target`. -/
def Projectile.has_hit_target (p : Projectile) : Bool :=
  p.movement.has_hit

/-- `Projectile.is_expired`. -/
def Projectile.is_expired (p : Projectile) : Bool :=
  decide (p.movement.travel_time ≥ p.movement.max_travel_time) ||
    (p.has_exploded && decide (p.projectile_type ≠ .MINE))

/-- `Tower._find_closest_enemy_to_point`: index of the closest live enemy
within `max_distance` of the point (squared-distance comparisons; strict
`<` as in the source, so the earliest of equidistant enemies wins). -/
def find_closest_enemy_to_point (point : ℚ × ℚ) (enemies : List Enemy)
    (max_distance : ℚ) : Option Nat :=
  let step := fun (best : Option Nat × ℚ) (ie : Nat × Enemy) =>
    if ie.2.is_alive then
      let d2 := dist2 point ie.2.movement.position
      if d2 < best.2 then (some ie.1, d2) else best
    else best
  (enemies.enum.foldl step (none, max_distance ^ 2)).1

/-- `Tower._handle_projectile_hit`.  For an area projectile the source
queries `_get_enemies_in_radius`, which is itself a placeholder returning
`[]`, so no enemy is damaged; the single-target branch damages the closest
live enemy within 16 units of the impact point and applies the carried
slow/stun.  Returns the updated enemies and the emitted event types. -/
def Tower.handle_projectile_hit (p : Projectile) (enemies : List Enemy) :
    List Enemy × List String :=
  let stats := p.tower_stats
  if stats.area_damage then (enemies, ["projectile_impact"])
  else
    match find_closest_enemy_to_point p.movement.position enemies 16 with
    | none => (enemies, ["projectile_impact"])
    | some i =>
      let enemies := applyDamageAt enemies i p.damage .physical
      let enemies :=
        if 0 < stats.slow_effect then
          match enemies.get? i with
          | some e => enemies.set i (e.apply_effect "slow" stats.slow_duration stats.slow_effect)
          | none => enemies
        else enemies
      let enemies :=
        if 0 < stats.stun_duration then applyEffectAt enemies i "stun" stats.stun_duration
        else enemies
      (enemies, ["projectile_impact"])

/-- `Tower._update_projectiles`: update each projectile; a projectile whose
`has_hit_target()` is true is resolved through `_handle_projectile_hit` and
removed — the `elif is_expired()` silent-removal branch is reachable only
when `has_hit` is false. -/
def Tower.update_projectiles (projectiles : List Projectile)
    (enemies : List Enemy) (dt : ℚ) : List Projectile × List Enemy × List String :=
  let step := fun (acc : List Projectile × List Enemy × List String) (p : Projectile) =>
    let (kept, enemies, events) := acc
    let p := p.update dt
    if p.has_hit_target then
      let (enemies, evs) := Tower.handle_projectile_hit p enemies
      (kept, enemies, events ++ p.events ++ evs)
    else if p.is_expired then (kept, enemies, events ++ p.events)
    else (kept ++ [p], enemies, events ++ p.events)
  projectiles.foldl step ([], enemies, [])

/-- `SNIPER_MECHA` base stats from `Tower._load_tower_stats`. -/
def sniperMechaStats : TowerStats :=
  { cost := 150, damage := 400, range := 200, attack_speed := 3/5,
    projectile_speed := 800, pierce_count := 2 }

/-- The C8 test projectile: a sniper bullet fired from the origin at a
target 10000 units away along the x-axis at the sniper's projectile speed
of 800 — it cannot reach the target within the 10-second lifetime. -/
def projectileC8 : Projectile :=
  Projectile.init .SNIPER_BULLET (0, 0) (10000, 0) 400 800 sniperMechaStats

/-- State of the C8 projectile after a single 11-second update (clamping of
`delta_time` happens upstream in the game loop; `Projectile.update` itself
accepts any tick length, and shorter ticks reach the same expiry state). -/
def projectileC8_expired : Projectile :=
  projectileC8.update 11

/-- The full C8 tower-side step: the expired projectile resolved against a
soldier standing 5 units from the muzzle. -/
def c8TowerStep : List Projectile × List Enemy × List String :=
  Tower.update_projectiles [projectileC8] [soldierAt (5, 0)] 11

/-- The C4 scenario: three Steam Soldiers on the path at 50-unit spacing
(within the 64-unit chain radius of their neighbours), targeted by a
level-1 Lightning Tower (damage 80, chain 3, stun 2 s) at index 0. -/
def enemiesC4 : List Enemy :=
  [soldierAt (0, 0), soldierAt (50, 0), soldierAt (100, 0)]

-- ═══════════════════════════════════════════════════════════
-- src/world/pathfinding.py
-- ═══════════════════════════════════════════════════════════

/-- `PathfindingAlgorithm` enum. -/
inductive PathfindingAlgorithm where
  | A_STAR
  | DIJKSTRA
  | BREADTH_FIRST
  | JUMP_POINT_SEARCH
deriving DecidableEq, Repr

/-- The `.value` string of each algorithm member. -/
def PathfindingAlgorithm.strValue : PathfindingAlgorithm → String
  | .A_STAR => "a_star"
  | .DIJKSTRA => "dijkstra"
  | .BREADTH_FIRST => "breadth_first"
  | .JUMP_POINT_SEARCH => "jump_point_search"

/-- `HeuristicType` enum, restricted to the members the claims exercise:
`EUCLIDEAN` and `DIAGONAL` compute `math.sqrt` values with no exact
rational embedding and are used by no claim. -/
inductive HeuristicType where
  | MANHATTAN
  | ZERO
deriving DecidableEq, Repr

/-- The `.value` string of each heuristic member. -/
def HeuristicType.strValue : HeuristicType → String
  | .MANHATTAN => "manhattan"
  | .ZERO => "zero"

/-- `PathfindingConstraints` with its source defaults.  The
`diagonal_cost_multiplier` default is the exact value of the double
`math.sqrt(2)`; `max_computation_time` (a wall-clock budget the embedded
algorithms never consult — the source checks only node counts) and the
unused `avoid_enemies`/`avoid_projectiles`/`min_clearance` knobs are
carried as plain data. -/
structure PathfindingConstraints where
  allow_diagonal : Bool := false
  diagonal_cost_multiplier : ℚ := 6369051672525773 / 4503599627370496
  max_slope : PyFloat := .inf
  can_cross_water : Bool := false
  min_clearance : Nat := 1
  avoid_enemies : Bool := false
  avoid_projectiles : Bool := false
  enemy_avoidance_radius : ℚ := 2
  max_search_nodes : Nat := 10000
  custom_walkable_filter : Option (Int → Int → Bool) := none
  custom_cost_modifier : Option (Int → Int → ℚ) := none

/-- `PathfindingResult` (the wall-clock `computation_time` field is
dropped). -/
structure PathfindingResult where
  path : List (Int × Int) := []
  cost : PyFloat := .inf
  nodes_explored : Nat := 0
  algorithm_used : PathfindingAlgorithm := .A_STAR
  success : Bool := false
deriving DecidableEq, Repr

/-- `PathNode` dataclass; the `parent` back-pointer makes this a recursive
structure. -/
inductive PathNode where
  | mk (x y : Int) (g_cost h_cost f_cost : PyFloat) (parent : Option PathNode)

/-- The node's x coordinate. -/
def PathNode.x : PathNode → Int
  | .mk x _ _ _ _ _ => x

/-- The node's y coordinate. -/
def PathNode.y : PathNode → Int
  | .mk _ y _ _ _ _ => y

/-- The node's g cost. -/
def PathNode.g_cost : PathNode → PyFloat
  | .mk _ _ g _ _ _ => g

/-- The node's h cost. -/
def PathNode.h_cost : PathNode → PyFloat
  | .mk _ _ _ h _ _ => h

/-- The node's f cost. -/
def PathNode.f_cost : PathNode → PyFloat
  | .mk _ _ _ _ f _ => f

/-- The node's parent pointer. -/
def PathNode.parent : PathNode → Option PathNode
  | .mk _ _ _ _ _ p => p

instance : Inhabited PathNode :=
  ⟨.mk 0 0 (.val 0) (.val 0) (.val 0) none⟩

/-- `PathNode.__lt__`: `f_cost`, ties broken on `h_cost`. -/
def PathNode.ltb (a b : PathNode) : Bool :=
  if a.f_cost = b.f_cost then PyFloat.ltb a.h_cost b.h_cost
  else PyFloat.ltb a.f_cost b.f_cost

/-- CPython `heapq._siftdown` (the bubble-up pass of `heappush`), with the
recursion fuelled by the position, which strictly decreases. -/
def heapSiftdown : Nat → Array PathNode → Nat → Nat → PathNode → Array PathNode
  | 0, heap, _, pos, newitem => heap.setD pos newitem
  | fuel + 1, heap, startpos, pos, newitem =>
    if startpos < pos then
      let parentpos := (pos - 1) / 2
      let parent := heap.getD parentpos default
      if PathNode.ltb newitem parent then
        heapSiftdown fuel (heap.setD pos parent) startpos parentpos newitem
      else heap.setD pos newitem
    else heap.setD pos newitem

/-- CPython `heapq.heappush`. -/
def heappush (heap : Array PathNode) (item : PathNode) : Array PathNode :=
  let heap := heap.push item
  heapSiftdown heap.size heap 0 (heap.size - 1) item

/-- The descending walk of CPython `heapq._siftup`: move the smaller child
up until a leaf is reached, returning the final position. -/
def heapSiftupGo (endpos : Nat) : Nat → Array PathNode → Nat → Nat × Array PathNode
  | 0, heap, pos => (pos, heap)
  | fuel + 1, heap, pos =>
    let childpos := 2 * pos + 1
    if childpos < endpos then
      let rightpos := childpos + 1
      let childpos :=
        if rightpos < endpos &&
            !(PathNode.ltb (heap.getD childpos default) (heap.getD rightpos default)) then
          rightpos
        else childpos
      let heap := heap.setD pos (heap.getD childpos default)
      heapSiftupGo endpos fuel heap childpos
    else (pos, heap)

/-- CPython `heapq._siftup`: sink the hole to a leaf, drop the new item in,
then bubble it back up with `_siftdown`. -/
def heapSiftup (heap : Array PathNode) (pos : Nat) : Array PathNode :=
  let startpos := pos
  let newitem := heap.getD pos default
  let r := heapSiftupGo heap.size heap.size heap pos
  heapSiftdown heap.size r.2 startpos r.1 newitem

/-- CPython `heapq.heappop` (`none` only on an empty heap, which the A*
loop never pops). -/
def heappop (heap : Array PathNode) : Option PathNode × Array PathNode :=
  if heap.size = 0 then (none, heap)
  else
    let lastelt := heap.getD (heap.size - 1) default
    let heap := heap.pop
    if heap.size = 0 then (some lastelt, heap)
    else
      let returnitem := heap.getD 0 default
      let heap := heap.setD 0 lastelt
      (some returnitem, heapSiftup heap 0)

/-- The heuristic function table (`Pathfinder.heuristic_functions`):
Manhattan distance, or the constant zero used for Dijkstra. -/
def heuristicFn : HeuristicType → Int → Int → Int × Int → PyFloat
  | .MANHATTAN, x, y, g => .val (((x - g.1).natAbs + (y - g.2).natAbs : Nat) : ℚ)
  | .ZERO, _, _, _ => .val 0

/-- `Pathfinder._get_movement_cost`: `none` when the move is impossible;
otherwise the destination tile's movement cost times the custom modifier,
subject to the slope constraint (skipped when `max_slope` is infinite,
exactly as `constraints.max_slope < float('inf')` skips it). -/
def Pathfinder.get_movement_cost (grid : Grid) (c : PathfindingConstraints)
    (from_x from_y to_x to_y : Int) : Option PyFloat :=
  if ¬ grid.is_valid_position to_x to_y then none
  else if ¬ grid.is_walkable to_x to_y ∧
      ¬ (c.can_cross_water ∧ grid.get_tile to_x to_y = .WATER) then none
  else if (c.custom_walkable_filter.map (fun f => !(f to_x to_y))).getD false then
    none
  else
    let base_cost := grid.get_movement_cost to_x to_y
    let base_cost := match c.custom_cost_modifier with
      | some f => base_cost.mul (.val (f to_x to_y))
      | none => base_cost
    match c.max_slope with
    | .inf => some base_cost
    | .val s =>
      let elevation_diff :=
        |(grid.get_tile_properties to_x to_y).elevation -
          (grid.get_tile_properties from_x from_y).elevation|
      if s < elevation_diff then none else some base_cost

/-- `Pathfinder._get_neighbors`: orthogonal neighbours in the source's
order `(0,1), (1,0), (0,-1), (-1,0)`, then (when allowed) diagonals with
the diagonal cost multiplier. -/
def Pathfinder.get_neighbors (grid : Grid) (c : PathfindingConstraints)
    (x y : Int) : List (Int × Int × PyFloat) :=
  let orth := [((0:Int), (1:Int)), (1, 0), (0, -1), (-1, 0)]
  let diag := [((1:Int), (1:Int)), (1, -1), (-1, 1), (-1, -1)]
  let step := fun (mult : Option ℚ) (acc : List (Int × Int × PyFloat)) (d : Int × Int) =>
    let nx := x + d.1
    let ny := y + d.2
    match Pathfinder.get_movement_cost grid c x y nx ny with
    | some cost =>
      let cost := match mult with
        | some m => cost.mul (.val m)
        | none => cost
      acc ++ [(nx, ny, cost)]
    | none => acc
  let neighbors := orth.foldl (step none) []
  if c.allow_diagonal then
    diag.foldl (step (some c.diagonal_cost_multiplier)) neighbors
  else neighbors

/-- `Pathfinder._reconstruct_path`: follow parent pointers and reverse. -/
def PathNode.reconstruct_path : PathNode → List (Int × Int)
  | .mk x y _ _ _ parent =>
    (match parent with
     | some p => p.reconstruct_path
     | none => []) ++ [(x, y)]

/-- Lookup in the `g_scores` dict. -/
def gsLookup (gs : List ((Int × Int) × PyFloat)) (k : Int × Int) : Option PyFloat :=
  (gs.find? (fun e => e.1 = k)).map (·.2)

/-- Insert-or-assign in the `g_scores` dict. -/
def gsUpdate (gs : List ((Int × Int) × PyFloat)) (k : Int × Int) (v : PyFloat) :
    List ((Int × Int) × PyFloat) :=
  if (gs.find? (fun e => e.1 = k)).isSome then
    gs.map (fun e => if e.1 = k then (e.1, v) else e)
  else gs ++ [(k, v)]

/-- The body of `Pathfinder._a_star`'s `while` loop.  The fuel equals
`max_search_nodes − nodes_explored`, so `fuel = 0` is exactly the loop
condition `nodes_explored < max_nodes` failing; every non-returning
iteration increments `nodes_explored` and burns one unit.  A node already
present in the open set is **not** re-pushed even when a better g-score was
just recorded — the stale heap entry keeps its old costs and parent, as in
the source. -/
def aStarLoop (grid : Grid) (c : PathfindingConstraints) (goal : Int × Int)
    (heuristic : HeuristicType) :
    Nat → Array PathNode → List (Int × Int) → List ((Int × Int) × PyFloat) →
      Nat → PathfindingResult
  | 0, _, _, _, explored => { nodes_explored := explored, success := false }
  | fuel + 1, open_set, closed_set, g_scores, explored =>
    if open_set.size = 0 then { nodes_explored := explored, success := false }
    else
      match heappop open_set with
      | (none, _) => { nodes_explored := explored, success := false }
      | (some current, open_set) =>
        if (current.x, current.y) = goal then
          { path := current.reconstruct_path, cost := current.g_cost,
            nodes_explored := explored, success := true }
        else
          let closed_set := (current.x, current.y) :: closed_set
          let explored := explored + 1
          let step := fun (acc : Array PathNode × List ((Int × Int) × PyFloat))
              (nb : Int × Int × PyFloat) =>
            let (open_set, g_scores) := acc
            let nx := nb.1
            let ny := nb.2.1
            let move_cost := nb.2.2
            if closed_set.contains (nx, ny) then acc
            else
              let tentative_g_cost := current.g_cost.add move_cost
              let improved := match gsLookup g_scores (nx, ny) with
                | none => true
                | some old => PyFloat.ltb tentative_g_cost old
              if improved then
                let h := heuristicFn heuristic nx ny goal
                let node := PathNode.mk nx ny tentative_g_cost h
                  (tentative_g_cost.add h) (some current)
                let g_scores := gsUpdate g_scores (nx, ny) tentative_g_cost
                if open_set.toList.any (fun n => n.x = nx ∧ n.y = ny) then
                  (open_set, g_scores)
                else (heappush open_set node, g_scores)
              else acc
          let r := (Pathfinder.get_neighbors grid c current.x current.y).foldl
            step (open_set, g_scores)
          aStarLoop grid c goal heuristic fuel r.1 closed_set r.2 explored

/-- `Pathfinder._a_star`. -/
def Pathfinder.a_star (grid : Grid) (start goal : Int × Int)
    (heuristic : HeuristicType) (c : PathfindingConstraints) : PathfindingResult :=
  let h0 := heuristicFn heuristic start.1 start.2 goal
  let start_node := PathNode.mk start.1 start.2 (.val 0) h0 ((PyFloat.val 0).add h0) none
  aStarLoop grid c goal heuristic c.max_search_nodes #[start_node] []
    [(start, .val 0)] 0

/-- `Pathfinder._dijkstra`: "Dijkstra est A* avec heuristique nulle" — the
requested heuristic is discarded and A* runs with `ZERO`. -/
def Pathfinder.dijkstra (grid : Grid) (start goal : Int × Int)
    (heuristic : HeuristicType) (c : PathfindingConstraints) : PathfindingResult :=
  Pathfinder.a_star grid start goal .ZERO c

/-- `Pathfinder._reconstruct_path_from_map`, fuelled by the map size (each
step consumes a distinct parent entry; the source's loop terminates because
BFS parent maps are acyclic). -/
def reconstructFromMap (start : Int × Int)
    (parent_map : List ((Int × Int) × (Int × Int))) :
    Nat → Int × Int → List (Int × Int) → List (Int × Int)
  | 0, _, acc => acc.reverse
  | fuel + 1, current, acc =>
    if current = start then acc.reverse
    else
      match (parent_map.find? (fun e => e.1 = current)).map (·.2) with
      | none => acc.reverse
      | some p => reconstructFromMap start parent_map fuel p (acc ++ [p])

/-- The loop of `Pathfinder._breadth_first_search` (FIFO queue; the parent
map stores coordinates, standing for the stored `PathNode`'s `(x, y)`). -/
def bfsLoop (grid : Grid) (c : PathfindingConstraints) (start goal : Int × Int) :
    Nat → List (Int × Int) → List (Int × Int) →
      List ((Int × Int) × (Int × Int)) → Nat → PathfindingResult
  | 0, _, _, _, explored => { nodes_explored := explored, success := false }
  | fuel + 1, queue, visited, parent_map, explored =>
    match queue with
    | [] => { nodes_explored := explored, success := false }
    | current :: queue =>
      let explored := explored + 1
      if current = goal then
        let path := reconstructFromMap start parent_map (parent_map.length + 1)
          goal [goal]
        { path := path, cost := .val ((path.length : ℚ) - 1),
          nodes_explored := explored, success := true }
      else
        let step := fun (acc : List (Int × Int) × List (Int × Int) ×
            List ((Int × Int) × (Int × Int))) (nb : Int × Int × PyFloat) =>
          let (queue, visited, parent_map) := acc
          let npos := (nb.1, nb.2.1)
          if visited.contains npos then acc
          else (queue ++ [npos], visited ++ [npos], parent_map ++ [(npos, current)])
        let r := (Pathfinder.get_neighbors grid c current.1 current.2).foldl
          step (queue, visited, parent_map)
        bfsLoop grid c start goal fuel r.1 r.2.1 r.2.2 explored

/-- `Pathfinder._breadth_first_search`. -/
def Pathfinder.breadth_first (grid : Grid) (start goal : Int × Int)
    (c : PathfindingConstraints) : PathfindingResult :=
  bfsLoop grid c start goal c.max_search_nodes [start] [start] [] 0

/-- `Pathfinder._validate_positions`: both endpoints in bounds and the goal
walkable. -/
def Pathfinder.validate_positions (grid : Grid) (start goal : Int × Int) : Bool :=
  grid.is_valid_position start.1 start.2 && grid.is_valid_position goal.1 goal.2 &&
    grid.is_walkable goal.1 goal.2

/-- Python's `str(bool)`. -/
def pyBool : Bool → String
  | true => "True"
  | false => "False"

/-- Python's `str` of an int 2-tuple, `"(x, y)"`. -/
def pyTuple (p : Int × Int) : String :=
  "(" ++ toString p.1 ++ ", " ++ toString p.2 ++ ")"

/-- `Pathfinder._generate_cache_key`:
`f"{start}_{goal}_{algorithm.value}_{heuristic.value}_{constraints.allow_diagonal}"`. -/
def Pathfinder.generate_cache_key (start goal : Int × Int)
    (algorithm : PathfindingAlgorithm) (heuristic : HeuristicType)
    (c : PathfindingConstraints) : String :=
  pyTuple start ++ "_" ++ pyTuple goal ++ "_" ++ algorithm.strValue ++ "_" ++
    heuristic.strValue ++ "_" ++ pyBool c.allow_diagonal

/-- The `Pathfinder` object: grid, result cache (an insertion-ordered dict
modelled as an association list), cache switches and the integer counters of
`stats` (the two floating moving averages are derived data and dropped). -/
structure Pathfinder where
  grid : Grid
  path_cache : List (String × PathfindingResult) := []
  cache_enabled : Bool := true
  cache_max_size : Nat := 1000
  total_searches : Nat := 0
  cache_hits : Nat := 0
  cache_misses : Nat := 0

/-- `Pathfinder.__init__(grid)`. -/
def Pathfinder.init (grid : Grid) : Pathfinder :=
  { grid := grid }

/-- `Pathfinder._cache_result`: at capacity, `next(iter(self.path_cache))`
deletes the **first-inserted** entry (the comment in the source itself says
"premier entré, premier sorti"); then the result is stored under the key
(insert-or-assign, assignment keeping the key's position as Python dicts
do). -/
def Pathfinder.cache_result (pf : Pathfinder) (cache_key : String)
    (result : PathfindingResult) : Pathfinder :=
  let cache :=
    if pf.path_cache.length ≥ pf.cache_max_size then pf.path_cache.tail
    else pf.path_cache
  let cache :=
    if (cache.find? (fun e => e.1 = cache_key)).isSome then
      cache.map (fun e => if e.1 = cache_key then (e.1, result) else e)
    else cache ++ [(cache_key, result)]
  { pf with path_cache := cache }

/-- The `while len > max` shrink loop of `Pathfinder.set_cache_max_size`,
fuelled by the current length. -/
def cacheShrink : Nat → List (String × PathfindingResult) → Nat →
    List (String × PathfindingResult)
  | 0, l, _ => l
  | fuel + 1, l, m => if m < l.length then cacheShrink fuel l.tail m else l

/-- `Pathfinder.set_cache_max_size`. -/
def Pathfinder.set_cache_max_size (pf : Pathfinder) (max_size : Nat) : Pathfinder :=
  { pf with cache_max_size := max_size,
            path_cache := cacheShrink pf.path_cache.length pf.path_cache max_size }

/-- `Pathfinder.find_path` (default algorithm `A_STAR`, default heuristic
`MANHATTAN`, default constraints): validation, cache lookup (a hit bumps
`cache_hits` and returns the stored result **without touching the cache
order**), algorithm dispatch (`JUMP_POINT_SEARCH` falls back to A*), stats
update, and caching of successful results only. -/
def Pathfinder.find_path (pf : Pathfinder) (start goal : Int × Int)
    (algorithm : PathfindingAlgorithm := .A_STAR)
    (heuristic : HeuristicType := .MANHATTAN)
    (constraints : PathfindingConstraints := {}) :
    PathfindingResult × Pathfinder :=
  if ¬ Pathfinder.validate_positions pf.grid start goal then
    ({ success := false }, pf)
  else
    let cache_key := Pathfinder.generate_cache_key start goal algorithm heuristic
      constraints
    match (if pf.cache_enabled then
            (pf.path_cache.find? (fun e => e.1 = cache_key)).map (·.2)
           else none) with
    | some cached_result =>
      (cached_result, { pf with cache_hits := pf.cache_hits + 1 })
    | none =>
      let pf := { pf with cache_misses := pf.cache_misses + 1 }
      let result := match algorithm with
        | .A_STAR => Pathfinder.a_star pf.grid start goal heuristic constraints
        | .DIJKSTRA => Pathfinder.dijkstra pf.grid start goal heuristic constraints
        | .BREADTH_FIRST => Pathfinder.breadth_first pf.grid start goal constraints
        | .JUMP_POINT_SEARCH => Pathfinder.a_star pf.grid start goal heuristic constraints
      let result := { result with algorithm_used := algorithm }
      let pf := { pf with total_searches := pf.total_searches + 1 }
      let pf := if pf.cache_enabled ∧ result.success then
          pf.cache_result cache_key result
        else pf
      (result, pf)

/-- The C6 counterexample grid: 5×2, all cells default (walkable, movement
cost 1) except a wall at (3, 1) installed with explicit, consistent
properties via `set_tile_properties`. -/
def gridC6 : Grid :=
  (Grid.init 5 2).set_tile_properties 3 1 (TileProperties.ofType .WALL)

/-- The C7 cache scenario grid: a walkable 3×1 strip. -/
def gridC7 : Grid :=
  Grid.init 3 1

/-- C7 scenario, step 0: a fresh pathfinder shrunk to a 2-entry cache with
`set_cache_max_size(2)`. -/
def pfC7_0 : Pathfinder :=
  (Pathfinder.init gridC7).set_cache_max_size 2

/-- C7 scenario, step 1: search (0,0)→(1,0) — miss, cached. -/
def pfC7_1 : Pathfinder :=
  (pfC7_0.find_path (0, 0) (1, 0)).2

/-- C7 scenario, step 2: search (0,0)→(2,0) — miss, cached (cache full). -/
def pfC7_2 : Pathfinder :=
  (pfC7_1.find_path (0, 0) (2, 0)).2

/-- C7 scenario, step 3: repeat search (0,0)→(1,0) — cache hit. -/
def pfC7_3 : Pathfinder :=
  (pfC7_2.find_path (0, 0) (1, 0)).2

/-- C7 scenario, step 4: search (1,0)→(2,0) — miss, cached at capacity,
forcing an eviction. -/
def pfC7_4 : Pathfinder :=
  (pfC7_3.find_path (1, 0) (2, 0)).2

/-- The cache key of search (0,0)→(1,0) with default algorithm/heuristic. -/
def keyC7_1 : String :=
  Pathfinder.generate_cache_key (0, 0) (1, 0) .A_STAR .MANHATTAN {}

/-- The cache key of search (0,0)→(2,0). -/
def keyC7_2 : String :=
  Pathfinder.generate_cache_key (0, 0) (2, 0) .A_STAR .MANHATTAN {}

/-- The cache key of search (1,0)→(2,0). -/
def keyC7_3 : String :=
  Pathfinder.generate_cache_key (1, 0) (2, 0) .A_STAR .MANHATTAN {}

/-- An LRU-cache key trace as claim C7 describes it (spec side, for
comparison with the code's behaviour): keys ordered from least to most
recently used; a lookup hit refreshes the entry's recency, and an insertion
at capacity evicts the least recently used entry. -/
def lruApply (cap : Nat) (keys : List String) : Bool × String → List String
  | (true, k) =>
    if keys.contains k then keys.filter (· ≠ k) ++ [k]
    else if cap ≤ keys.length then keys.tail ++ [k]
    else keys ++ [k]
  | (false, k) =>
    if keys.contains k then keys.filter (· ≠ k) ++ [k] else keys

/-- The LRU key trace of the C7 scenario's operations (insert k1, insert
k2, hit k1, insert k3) at capacity 2. -/
def lruTraceC7 : List String :=
  [(true, keyC7_1), (true, keyC7_2), (false, keyC7_1), (true, keyC7_3)].foldl
    (lruApply 2) []

/-- A default (failed) pathfinding result, used as a cache payload in the
C7 witness. -/
def emptyResult : PathfindingResult :=
  {}

-- ═══════════════════════════════════════════════════════════
-- src/world/map_generator.py
-- ═══════════════════════════════════════════════════════════

/-- Deterministic stand-in for the CPython Mersenne-Twister output stream:
`mtStream seed n` is the `n`-th raw draw of the generator seeded with
`seed`.  The map-generation claims concern determinism — that every draw
is a function of the seed and the draw index alone — not the distribution,
so the twister itself is abstracted by a fixed LCG-style mixing function. -/
def mtStream (seed n : Nat) : Nat :=
  (seed * 6364136223846793005 + n * 1442695040888963407 +
    (seed + n + 1) * 2862933555777941757) % 18446744073709551616

/-- The `random` module state after `random.seed(seed)`: the seed-determined
stream plus the number of draws consumed.  (`generate_map` also calls
`np.random.seed(seed)`, but no numpy draw occurs anywhere in the
generator, so that second stream is not modelled.) -/
structure PyRandom where
  seed : Nat
  counter : Nat := 0
deriving DecidableEq, Repr

/-- `random.seed(seed)`. -/
def PyRandom.seeded (seed : Nat) : PyRandom :=
  { seed := seed }

/-- Consume one raw draw. -/
def PyRandom.draw (r : PyRandom) : Nat × PyRandom :=
  (mtStream r.seed r.counter, { r with counter := r.counter + 1 })

/-- `random.randint(a, b)` — both bounds inclusive; one raw draw. -/
def PyRandom.randint (r : PyRandom) (a b : Int) : Int × PyRandom :=
  let (n, r) := r.draw
  (if a ≤ b then a + ((n % (b - a + 1).toNat : Nat) : Int) else a, r)

/-- `random.choice(seq)` on a non-empty sequence; one raw draw (call sites
guard emptiness as the source does). -/
def PyRandom.choice (r : PyRandom) (l : List α) (dflt : α) : α × PyRandom :=
  let (n, r) := r.draw
  (l.getD (n % l.length) dflt, r)

/-- `random.random()` — a rational in `[0, 1)`; one raw draw. -/
def PyRandom.randomUnit (r : PyRandom) : ℚ × PyRandom :=
  let (n, r) := r.draw
  (((n % 9007199254740992 : Nat) : ℚ) / 9007199254740992, r)

/-- `random.uniform(a, b)`. -/
def PyRandom.uniform (r : PyRandom) (a b : ℚ) : ℚ × PyRandom :=
  let (u, r) := r.randomUnit
  (a + (b - a) * u, r)

/-- `EnvironmentTheme` enum. -/
inductive EnvironmentTheme where
  | INDUSTRIAL_FACTORY
  | STEAMPUNK_PORT
  | GEOTHERMAL_MINE
  | INVENTOR_LAB
deriving DecidableEq, Repr

/-- `DecorationElement` dataclass. -/
structure DecorationElement where
  name : String
  position : Int × Int
  size : Int × Int
  rotation : ℚ := 0
  scale : ℚ := 1
deriving DecidableEq, Repr

/-- `GenerationParams` with the source defaults
(`GRID_CONFIG` 24×16; the claim quantifies over seeded runs, so `seed` is
a plain value rather than an `Option`). -/
structure GenerationParams where
  width : Int := 24
  height : Int := 16
  theme : EnvironmentTheme := .INDUSTRIAL_FACTORY
  difficulty : Int := 1
  seed : Nat := 0
  path_complexity : ℚ := 1/2
  path_branches : Nat := 0
  min_placement_areas : Nat := 8
  placement_area_size : Int := 3
  decoration_density : ℚ := 3/10
deriving DecidableEq, Repr

/-- The mutable attributes of `MapGenerator` threaded through the phases,
plus the `random` module state. -/
structure MapGenState where
  grid : Grid
  spawn_point : Int × Int := (0, 0)
  base_point : Int × Int := (0, 0)
  main_path : List (Int × Int) := []
  placement_zones : List (List (Int × Int)) := []
  decorations : List DecorationElement := []
  rng : PyRandom

/-- Python floor division (`//`) on ints. -/
def pydiv (a b : Int) : Int :=
  Int.fdiv a b

/-- `range(a, b)` over ints. -/
def intRange (a b : Int) : List Int :=
  (List.range (b - a).toNat).map (fun i => a + (i : Int))

/-- `MapGenerator._is_valid_position`. -/
def MapGen.is_valid_position (params : GenerationParams) (x y : Int) : Bool :=
  decide (0 ≤ x) && decide (x < params.width) &&
    decide (0 ≤ y) && decide (y < params.height)

/-- `MapGenerator._distance_to_path`: minimal Manhattan distance to the
main path (`inf` while the path is empty). -/
def MapGen.distance_to_path (s : MapGenState) (x y : Int) : PyFloat :=
  s.main_path.foldl
    (fun acc p =>
      let d : PyFloat := .val (((x - p.1).natAbs + (y - p.2).natAbs : Nat) : ℚ)
      if PyFloat.ltb d acc then d else acc)
    .inf

/-- `MapGenerator._place_spawn_and_base`. -/
def MapGen.place_spawn_and_base (params : GenerationParams) (s : MapGenState) :
    MapGenState :=
  let (b, rng) := s.rng.choice [true, false] true
  let (spawn, base, rng) :=
    if b then
      let (sy, rng) := rng.randint (pydiv params.height 4) (pydiv (3 * params.height) 4)
      let (by2, rng) := rng.randint (pydiv params.height 4) (pydiv (3 * params.height) 4)
      (((0 : Int), sy), (params.width - 1, by2), rng)
    else
      let (sx, rng) := rng.randint (pydiv params.width 4) (pydiv (3 * params.width) 4)
      let (bx, rng) := rng.randint (pydiv params.width 4) (pydiv (3 * params.width) 4)
      ((sx, (0 : Int)), (bx, params.height - 1), rng)
  let grid := (s.grid.set_tile spawn.1 spawn.2 .SPAWN).set_tile base.1 base.2 .BASE
  { s with grid := grid, spawn_point := spawn, base_point := base, rng := rng }

/-- One iteration body of the constrained random walk in
`_generate_main_path`; mirrors the source's short-circuit draws: the
coin-flip between an x-step and a y-step happens only when both deltas are
non-zero. -/
def MapGen.pathStep (params : GenerationParams) (target : Int × Int)
    (current : Int × Int) (rng : PyRandom) : (Int × Int) × PyRandom :=
  let dx : Int := if target.1 > current.1 then 1 else if target.1 < current.1 then -1 else 0
  let dy : Int := if target.2 > current.2 then 1 else if target.2 < current.2 then -1 else 0
  let (u, rng) := rng.randomUnit
  if u < params.path_complexity then
    let possible_moves := [((0:Int), (1:Int)), (0, -1), (1, 0), (-1, 0)].foldl
      (fun acc d =>
        let nx := current.1 + d.1
        let ny := current.2 + d.2
        if MapGen.is_valid_position params nx ny then acc ++ [(nx, ny)] else acc) []
    if possible_moves.isEmpty then (current, rng)
    else rng.choice possible_moves current
  else
    let xstep := fun (rng : PyRandom) =>
      if MapGen.is_valid_position params (current.1 + dx) current.2 then
        ((current.1 + dx, current.2), rng)
      else (current, rng)
    let ystep := fun (rng : PyRandom) =>
      if MapGen.is_valid_position params current.1 (current.2 + dy) then
        ((current.1, current.2 + dy), rng)
      else (current, rng)
    if dx ≠ 0 then
      if dy = 0 then xstep rng
      else
        let (coin, rng) := rng.choice [true, false] true
        if coin then xstep rng else ystep rng
    else if dy ≠ 0 then ystep rng
    else (current, rng)

/-- The `while current != target and iteration < max_iterations` loop of
`_generate_main_path`. -/
def MapGen.pathWalk (params : GenerationParams) (target : Int × Int) :
    Nat → Int × Int → List (Int × Int) → PyRandom →
      List (Int × Int) × PyRandom
  | 0, _, path, rng => (path, rng)
  | fuel + 1, current, path, rng =>
    if current = target then (path, rng)
    else
      let (current, rng) := MapGen.pathStep params target current rng
      let path := if path.contains current then path else path ++ [current]
      MapGen.pathWalk params target fuel current path rng

/-- `MapGenerator._widen_path` with `PATH_WIDTH = 2` and the **global**
`GRID_CONFIG` 24×16 bounds the source hard-codes here.  The Python `set`
is modelled as an insertion-ordered deduplicating list: for tuples of small
ints CPython's set iteration order is likewise a fixed deterministic
function of the insertion sequence (int hashing is unsalted), which is all
the determinism claim needs. -/
def MapGen.widen_path (path : List (Int × Int)) (width : Int) : List (Int × Int) :=
  if width ≤ 1 then path
  else
    let add := fun (l : List (Int × Int)) (p : Int × Int) =>
      if l.contains p then l else l ++ [p]
    let widened := path.foldl add []
    path.foldl
      (fun widened p =>
        (intRange (-(pydiv width 2)) (pydiv width 2 + 1)).foldl
          (fun widened dx =>
            (intRange (-(pydiv width 2)) (pydiv width 2 + 1)).foldl
              (fun widened dy =>
                if dx.natAbs + dy.natAbs ≤ (pydiv width 2).toNat then
                  let nx := p.1 + dx
                  let ny := p.2 + dy
                  if 0 ≤ nx ∧ nx < 24 ∧ 0 ≤ ny ∧ ny < 16 then
                    add widened (nx, ny)
                  else widened
                else widened)
              widened)
          widened)
      widened

/-- `MapGenerator._generate_main_path`: constrained random walk from spawn
to base, widening, and writing `PATH` tiles for every widened cell other
than the spawn and base. -/
def MapGen.generate_main_path (params : GenerationParams) (s : MapGenState) :
    MapGenState :=
  let max_iterations := (params.width * params.height).toNat
  let (path, rng) := MapGen.pathWalk params s.base_point max_iterations
    s.spawn_point [s.spawn_point] s.rng
  let main_path := MapGen.widen_path path 2
  let grid := main_path.foldl
    (fun g p =>
      if p = s.spawn_point ∨ p = s.base_point then g
      else g.set_tile p.1 p.2 .PATH)
    s.grid
  { s with grid := grid, main_path := main_path, rng := rng }

/-- `MapGenerator._create_placement_zone`: the organic disk, drawing one
`randint(-1, 1)` jitter per candidate cell that passed the
emptiness/distance checks (Python evaluates the jitter inside the
comparison).  Note the asymmetric Python ranges: `range(-size//2,
size//2 + 1)` is `[-2, 1]` for size 3 because `-3//2 = -2`. -/
def MapGen.create_placement_zone (params : GenerationParams) (s : MapGenState)
    (center_x center_y : Int) (size : Int) (rng : PyRandom) :
    List (Int × Int) × PyRandom :=
  (intRange (pydiv (-size) 2) (pydiv size 2 + 1)).foldl
    (fun (acc : List (Int × Int) × PyRandom) dx =>
      (intRange (pydiv (-size) 2) (pydiv size 2 + 1)).foldl
        (fun (acc : List (Int × Int) × PyRandom) dy =>
          let (zone, rng) := acc
          let x := center_x + dx
          let y := center_y + dy
          if MapGen.is_valid_position params x y ∧
              s.grid.get_tile x y = .EMPTY ∧
              ¬ PyFloat.ltb (MapGen.distance_to_path s x y) (.val 1) then
            let (j, rng) := rng.randint (-1) 1
            if ((dx * dx + dy * dy : Int) : ℚ) ≤
                ((size * size : Int) : ℚ) / 4 + (j : ℚ) then
              (zone ++ [(x, y)], rng)
            else (zone, rng)
          else acc)
        acc)
    ([], rng)

/-- The `while zones_created < min and attempts < max_attempts` loop of
`_generate_placement_zones`. -/
def MapGen.placementLoop (params : GenerationParams) :
    Nat → Nat → MapGenState → MapGenState
  | 0, _, s => s
  | fuel + 1, zones_created, s =>
    if params.min_placement_areas ≤ zones_created then s
    else
      let (cx, rng) := s.rng.randint 1 (params.width - 2)
      let (cy, rng) := rng.randint 1 (params.height - 2)
      if PyFloat.ltb (MapGen.distance_to_path s cx cy) (.val 2) then
        MapGen.placementLoop params fuel zones_created { s with rng := rng }
      else
        let (zone, rng) := MapGen.create_placement_zone params s cx cy
          params.placement_area_size rng
        if 4 ≤ zone.length then
          let grid := zone.foldl (fun g p => g.set_tile p.1 p.2 .BUILDABLE) s.grid
          MapGen.placementLoop params fuel (zones_created + 1)
            { s with grid := grid, rng := rng,
                     placement_zones := s.placement_zones ++ [zone] }
        else
          MapGen.placementLoop params fuel zones_created { s with rng := rng }

/-- `MapGenerator._generate_placement_zones`. -/
def MapGen.generate_placement_zones (params : GenerationParams)
    (s : MapGenState) : MapGenState :=
  MapGen.placementLoop params (params.width * params.height).toNat 0 s

/-- The decoration tables of `_get_decoration_types_for_theme`. -/
def MapGen.decoration_types (theme : EnvironmentTheme) :
    List (String × (Int × Int)) :=
  let base := [("gear_small", ((1:Int), (1:Int))), ("gear_medium", (2, 2)),
    ("steam_pipe", (1, 3)), ("lamp_post", (1, 1))]
  let specific := match theme with
    | .INDUSTRIAL_FACTORY =>
      [("furnace", ((2:Int), (2:Int))), ("conveyor_belt", (4, 1)), ("steam_tank", (2, 3))]
    | .STEAMPUNK_PORT =>
      [("anchor", ((2:Int), (2:Int))), ("cargo_crate", (1, 1)), ("ship_wheel", (2, 2))]
    | .GEOTHERMAL_MINE =>
      [("mine_cart", ((1:Int), (2:Int))), ("pickaxe", (1, 1)), ("crystal_formation", (2, 2))]
    | .INVENTOR_LAB =>
      [("tesla_coil", ((2:Int), (3:Int))), ("workbench", (3, 2)), ("blueprint_table", (2, 2))]
  base ++ specific

/-- `MapGenerator._add_decorative_elements`. -/
def MapGen.add_decorative_elements (params : GenerationParams)
    (s : MapGenState) : MapGenState :=
  let num := (truncQ (((params.width * params.height : Int) : ℚ) *
    params.decoration_density * (1/10))).toNat
  let types := MapGen.decoration_types params.theme
  (List.range num).foldl
    (fun s _ =>
      let (x, rng) := s.rng.randint 0 (params.width - 1)
      let (y, rng) := rng.randint 0 (params.height - 1)
      if s.grid.get_tile x y = .EMPTY ∧
          ¬ PyFloat.ltb (MapGen.distance_to_path s x y) (.val 1) then
        let (dt, rng) := rng.choice types ("gear_small", (1, 1))
        let (rot, rng) := rng.uniform 0 360
        let (sc, rng) := rng.uniform (4/5) (6/5)
        { s with rng := rng
                 decorations := s.decorations ++
                   [{ name := dt.1, position := (x, y), size := dt.2,
                      rotation := rot, scale := sc }]
                 grid := s.grid.set_tile x y .DECORATION }
      else { s with rng := rng })
    s

/-- `MapGenerator._place_decoration` (also `_place_large_decoration`): up
to 10 placement attempts; on success the decoration is recorded, its
footprint painted `DECORATION`, and the loop breaks. -/
def MapGen.place_decoration (params : GenerationParams) (name : String)
    (size : Int × Int) : Nat → MapGenState → MapGenState
  | 0, s => s
  | attempts + 1, s =>
    let (x, rng) := s.rng.randint 0 (params.width - size.1)
    let (y, rng) := rng.randint 0 (params.height - size.2)
    let can_place := (intRange 0 size.1).all (fun dx =>
      (intRange 0 size.2).all (fun dy =>
        s.grid.get_tile (x + dx) (y + dy) = .EMPTY))
    if can_place ∧ ¬ PyFloat.ltb (MapGen.distance_to_path s x y) (.val 1) then
      let (rot, rng) := rng.uniform 0 360
      let grid := (intRange 0 size.1).foldl
        (fun g dx => (intRange 0 size.2).foldl
          (fun g dy => g.set_tile (x + dx) (y + dy) .DECORATION) g)
        s.grid
      { s with rng := rng, grid := grid,
               decorations := s.decorations ++
                 [{ name := name, position := (x, y), size := size,
                    rotation := rot }] }
    else MapGen.place_decoration params name size attempts { s with rng := rng }

/-- `MapGenerator._add_steam_pipes_along_paths`. -/
def MapGen.add_steam_pipes (s : MapGenState) : MapGenState :=
  let (n, rng) := s.rng.randint 3 6
  let s := { s with rng := rng }
  (List.range n.toNat).foldl
    (fun s _ =>
      if s.main_path.isEmpty then s
      else
        let (pt, rng) := s.rng.choice s.main_path (0, 0)
        let (rot, rng) := rng.choice [(0 : ℚ), 90] 0
        { s with rng := rng,
                 decorations := s.decorations ++
                   [{ name := "steam_pipe_main", position := pt, size := (1, 3),
                      rotation := rot }] })
    s

/-- `MapGenerator._add_mine_rails`. -/
def MapGen.add_mine_rails (s : MapGenState) : MapGenState :=
  if 10 < s.main_path.length then
    let (start, rng) := s.rng.randint 0 ((s.main_path.length : Int) - 10)
    let s := { s with rng := rng }
    let stop := min (start.toNat + 8) s.main_path.length
    ((List.range stop).drop start.toNat).foldl
      (fun s i =>
        { s with decorations := s.decorations ++
            [{ name := "mine_rail", position := s.main_path.getD i (0, 0),
               size := (1, 1) }] })
      s
  else s

/-- `MapGenerator._add_electrical_effects`. -/
def MapGen.add_electrical_effects (s : MapGenState) : MapGenState :=
  let (n, rng) := s.rng.randint 2 4
  let s := { s with rng := rng }
  (List.range n.toNat).foldl
    (fun s _ =>
      if s.placement_zones.isEmpty then s
      else
        let (zone, rng) := s.rng.choice s.placement_zones []
        if zone.isEmpty then { s with rng := rng }
        else
          let (pos, rng) := rng.choice zone (0, 0)
          { s with rng := rng,
                   decorations := s.decorations ++
                     [{ name := "electrical_arc", position := pos,
                        size := (1, 1) }] })
    s

/-- `MapGenerator._apply_theme_specific_elements` with its four handlers. -/
def MapGen.apply_theme (params : GenerationParams) (s : MapGenState) :
    MapGenState :=
  match params.theme with
  | .INDUSTRIAL_FACTORY =>
    let (n, rng) := s.rng.randint 2 4
    let s := (List.range n.toNat).foldl
      (fun s _ => MapGen.place_decoration params "industrial_chimney" (3, 3) 10 s)
      { s with rng := rng }
    MapGen.add_steam_pipes s
  | .STEAMPUNK_PORT =>
    let (n, rng) := s.rng.randint 1 3
    let s := (List.range n.toNat).foldl
      (fun s _ => MapGen.place_decoration params "steam_crane" (2, 4) 10 s)
      { s with rng := rng }
    let (m, rng) := s.rng.randint 2 4
    (List.range m.toNat).foldl
      (fun s _ => MapGen.place_decoration params "warehouse" (4, 2) 10 s)
      { s with rng := rng }
  | .GEOTHERMAL_MINE =>
    let s := MapGen.add_mine_rails s
    let (n, rng) := s.rng.randint 3 6
    (List.range n.toNat).foldl
      (fun s _ => MapGen.place_decoration params "steam_geyser" (1, 1) 10 s)
      { s with rng := rng }
  | .INVENTOR_LAB =>
    let (n, rng) := s.rng.randint 2 5
    let s := (List.range n.toNat).foldl
      (fun s _ => MapGen.place_decoration params "experimental_machine" (2, 2) 10 s)
      { s with rng := rng }
    MapGen.add_electrical_effects s

/-- `MapGenerator._add_emergency_placement_zones` (no random draws). -/
def MapGen.add_emergency_zones (params : GenerationParams) (s : MapGenState) :
    MapGenState :=
  let n := params.min_placement_areas - s.placement_zones.length
  (List.range n).foldl
    (fun s _ =>
      let corners := [((2:Int), (2:Int)), (params.width - 3, 2),
        (2, params.height - 3), (params.width - 3, params.height - 3)]
      let rec tryCorners : List (Int × Int) → MapGenState
        | [] => s
        | c :: rest =>
          if ¬ PyFloat.ltb (MapGen.distance_to_path s c.1 c.2) (.val 2) then
            let zone := [c, (c.1 + 1, c.2), (c.1, c.2 + 1), (c.1 + 1, c.2 + 1)]
            let grid := zone.foldl
              (fun g p =>
                if MapGen.is_valid_position params p.1 p.2 then
                  g.set_tile p.1 p.2 .BUILDABLE
                else g)
              s.grid
            { s with grid := grid, placement_zones := s.placement_zones ++ [zone] }
          else tryCorners rest
      tryCorners corners)
    s

/-- `MapGenerator._validate_and_fix_map`: re-run the main path with the
**default-constructed** `GenerationParams(path_complexity=0.1)` (24×16,
as the source builds fresh defaults) when spawn or base fell off the path;
emergency corner zones when fewer than half the quota; force-append the
base when it is not on the path. -/
def MapGen.validate_and_fix (params : GenerationParams) (s : MapGenState) :
    MapGenState :=
  let s :=
    if ¬ (s.main_path.contains s.spawn_point ∧ s.main_path.contains s.base_point) then
      MapGen.generate_main_path { path_complexity := 1/10, seed := 0 } s
    else s
  let s :=
    if s.placement_zones.length < pydiv (params.min_placement_areas : Int) 2 then
      MapGen.add_emergency_zones params s
    else s
  if ¬ s.main_path.contains s.base_point then
    { s with main_path := s.main_path ++ [s.base_point],
             grid := s.grid.set_tile s.base_point.1 s.base_point.2 .PATH }
  else s

/-- `MapGenerator.generate_map` for a seeded run: seed the PRNG, reset the
generator state, and run the phases in the source's order (secondary paths
are generated only when `path_branches > 0`; the default is 0, and the
claims use the default, so `_generate_secondary_paths` is not modelled —
its absence at `path_branches = 0` is exact). -/
def MapGen.generate_map (params : GenerationParams) : MapGenState :=
  let s : MapGenState :=
    { grid := Grid.init params.width params.height
      rng := PyRandom.seeded params.seed }
  let s := MapGen.place_spawn_and_base params s
  let s := MapGen.generate_main_path params s
  let s := MapGen.generate_placement_zones params s
  let s := MapGen.add_decorative_elements params s
  let s := MapGen.apply_theme params s
  MapGen.validate_and_fix params s

/-- The serialized form of one `TileProperties` entry in `Grid.to_dict`
(`custom_data` is the never-written empty dict and is omitted). -/
structure TilePropsDict where
  tile_type : Nat
  is_walkable : Bool
  is_buildable : Bool
  movement_cost : PyFloat
  elevation : ℚ
  rotation : ℚ
  variant : Int
deriving DecidableEq, Repr

/-- The dictionary produced by `Grid.to_dict`: dimensions, the nested
`tiles.tolist()` rows, the `properties` dict keyed `"x,y"` in insertion
order, and the constant metadata (the `created_at`/`last_modified`
timestamps are the literal `0.0` constants of `Grid.__init__`, never
updated anywhere). -/
structure GridDict where
  width : Int
  height : Int
  tile_size : Int
  tiles : List (List Nat)
  properties : List (String × TilePropsDict)
  metadata : List (String × String)
deriving DecidableEq, Repr

/-- `Grid.to_dict`. -/
def Grid.to_dict (g : Grid) : GridDict :=
  { width := g.width
    height := g.height
    tile_size := g.tile_size
    tiles := (List.range g.height.toNat).map (fun y =>
      (List.range g.width.toNat).map (fun x =>
        (g.tiles ((x : Int), (y : Int))).toVal))
    properties := g.tile_properties.map (fun e =>
      (toString e.1.1 ++ "," ++ toString e.1.2,
        { tile_type := e.2.tile_type.toVal
          is_walkable := e.2.is_walkable
          is_buildable := e.2.is_buildable
          movement_cost := e.2.movement_cost
          elevation := e.2.elevation
          rotation := e.2.rotation
          variant := e.2.variant }))
    metadata := [("created_at", "0.0"), ("last_modified", "0.0"),
      ("version", "1"), ("theme", "industrial_factory")] }

/-- The E6 parameters: seed 12345, theme IndustrialFactory, default grid. -/
def paramsE6 : GenerationParams :=
  { seed := 12345, theme := .INDUSTRIAL_FACTORY }

/-- Small-grid parameters used to evaluate a full generation run inside
the kernel at reasonable cost. -/
def paramsSmall : GenerationParams :=
  { width := 6, height := 4, seed := 12345 }
/-- C2 evaluation of the code at the failing input: on a fresh 1×1 grid,
`set_tile(0, 0, WALL)` stores tile kind `WALL`, yet the cell remains
walkable and buildable — `set_tile` mutates `tile_type` on a
default-constructed `TileProperties` without re-running `__post_init__`,
so the kind-derived flag defaults (Wall ⇒ not walkable, not buildable) are
never applied.  This contradicts spec invariant (I4) and the derivation
rule that `TileProperties.__post_init__` itself encodes. -/
theorem C2_set_tile_wall_cell_stays_walkable :
    ((Grid.init 1 1).set_tile 0 0 .WALL).get_tile 0 0 = TileType.WALL ∧
    ((Grid.init 1 1).set_tile 0 0 .WALL).is_walkable 0 0 = true ∧
    ((Grid.init 1 1).set_tile 0 0 .WALL).is_buildable 0 0 = true := by
  refine ⟨rfl, ?_, ?_⟩ <;> rfl

/-- On a live health component, `HealthComponent.take_damage` subtracts
`max(1, damage − armor)` from the current health, clamped at 0. -/
theorem HealthComponent.take_damage_live (h : HealthComponent) (dmg : Int)
    (hl : h.is_alive = true) :
    ((h.take_damage dmg).2).current_health =
      max 0 (h.current_health - max 1 (dmg - h.armor)) := by
  unfold HealthComponent.take_damage
  rw [hl]
  simp only [Bool.true_eq_false, if_false]
  split <;> simp <;> omega

/-- C3 counterexample: for damage 10, physical resistance 1/4, armor 0 on a
live enemy with 100 HP, the claimed formula gives an HP loss of 7.5, but the
code (which truncates `10 × 0.75` to the integer 7 before the armor step)
removes exactly 7 HP.  The claim as stated is therefore false on this
input. -/
theorem C3_damage_formula_counterexample :
    ((testEnemyC3.take_damage 10 .physical).2).health.current_health = 93 ∧
    claimedHpLossC3 10 (1/4) 0 = 15/2 ∧
    (100 : ℚ) - 93 ≠ claimedHpLossC3 10 (1/4) 0 := by
  refine ⟨?_, ?_, ?_⟩ <;> with_unfolding_all decide

/-- C3 amended: for every live enemy and every damage `d` of type `t` with
resistance in `[0, 1]`, the new health equals the old health minus
`max(1, int(d × (1 − r)) − armor)` — `int()` being Python truncation toward
zero, with no pre-armor floor at 1 — clamped at 0; the armor subtraction
happens exactly once, inside `HealthComponent.take_damage`. -/
theorem C3_amended_damage_formula (e : Enemy) (d : Int) (t : DamageType)
    (halive : e.health.is_alive = true)
    (hr0 : 0 ≤ e.stats.resistance t) (hr1 : e.stats.resistance t ≤ 1) :
    ((e.take_damage d t).2).health.current_health =
      max 0 (e.health.current_health -
        max 1 (truncQ ((d : ℚ) * (1 - e.stats.resistance t)) - e.health.armor)) := by
  have hh := HealthComponent.take_damage_live e.health
    (truncQ ((d : ℚ) * (1 - e.stats.resistance t))) halive
  unfold Enemy.take_damage
  rw [halive]
  simp only [Bool.true_eq_false, if_false]
  split <;> exact hh

/-- Witness for `C3_amended_damage_formula` at the concrete C3 enemy. -/
theorem C3_amended_damage_formula_witness :
    ((testEnemyC3.take_damage 10 .physical).2).health.current_health =
      max 0 (testEnemyC3.health.current_health -
        max 1 (truncQ ((10 : ℚ) * (1 - testEnemyC3.stats.resistance .physical)) -
          testEnemyC3.health.armor)) :=
  C3_amended_damage_formula testEnemyC3 10 .physical (by with_unfolding_all decide)
    (by with_unfolding_all decide) (by with_unfolding_all decide)

/-- C10: calling `take_damage` on an already-dead enemy (health 0, not
alive) returns `True` and leaves the entire enemy record — health,
resistances, timers — untouched: the dead-check is the first statement of
`Enemy.take_damage` and returns before any mutation. -/
theorem C10_take_damage_on_dead_enemy_is_noop (e : Enemy) (d : Int)
    (t : DamageType) (hhp : e.health.current_health = 0)
    (hdead : e.health.is_alive = false) :
    e.take_damage d t = (true, e) := by
  unfold Enemy.take_damage
  rw [hdead]
  simp

/-- Witness for `C10_take_damage_on_dead_enemy_is_noop`: the C3 test enemy
after being killed outright. -/
theorem C10_take_damage_on_dead_enemy_is_noop_witness :
    ((testEnemyC3.take_damage 1000 .physical).2).take_damage 50 .fire =
      (true, (testEnemyC3.take_damage 1000 .physical).2) :=
  C10_take_damage_on_dead_enemy_is_noop _ 50 .fire (by with_unfolding_all decide)
    (by with_unfolding_all decide)

/-- C5 counterexample: a freshly fired Steam Cannon (attack speed 0.8 shots
per second) has its cooldown reloaded to 1.25 s; a single `update` with
`delta_time = 2` drives the timer to −0.75, which is negative — the update
subtracts `delta_time` from any positive timer without clamping at zero.
The claim that the remaining cooldown is never negative is false. -/
theorem C5_cooldown_goes_negative_counterexample :
    ((AttackComponent.start_attack { stats := steamCannonStats }).update 2).attack_timer
      = -3/4 ∧
    ((AttackComponent.start_attack { stats := steamCannonStats }).update 2).attack_timer
      < 0 := by
  constructor <;> with_unfolding_all decide

/-- The effect of `AttackComponent.update` on the cooldown timer, for any
timer value: a positive timer is decremented by `delta_time` with no
clamp; a non-positive timer is left unchanged. -/
theorem AttackComponent.update_attack_timer (c : AttackComponent) (dt : ℚ) :
    (c.update dt).attack_timer =
      (if c.attack_timer > 0 then c.attack_timer - dt else c.attack_timer) := by
  unfold AttackComponent.update
  by_cases h : c.attack_timer > 0 <;> simp only [h, if_true, if_false] <;>
    split <;> rfl

/-- C5 amended: if the tower is ready, firing reloads the cooldown to
`1 / attack_speed`; an update subtracts `delta_time` only from a positive
timer (leaving a non-positive timer unchanged), so after an update with
`delta_time = dt ≥ 0` any component whose timer was non-negative — zero or
positive alike — has a cooldown no lower than `−dt`: the timer can
transiently undershoot zero by at most the tick length, and this is the
only way it becomes negative. -/
theorem C5_amended_cooldown_dynamics (c : AttackComponent) (dt : ℚ)
    (hdt : 0 ≤ dt) (hnn : 0 ≤ c.attack_timer) :
    (c.can_attack = true →
      (c.start_attack).attack_timer = 1 / c.stats.attack_speed) ∧
    (c.update dt).attack_timer =
      (if c.attack_timer > 0 then c.attack_timer - dt else c.attack_timer) ∧
    -dt ≤ (c.update dt).attack_timer := by
  refine ⟨?_, AttackComponent.update_attack_timer c dt, ?_⟩
  · intro hready
    unfold AttackComponent.start_attack
    rw [hready]
    simp
  · rw [AttackComponent.update_attack_timer]
    split <;> linarith

/-- Witness for `C5_amended_cooldown_dynamics`, at two concrete Steam
Cannon components with a 2-second tick: one mid-cooldown at 1.25 s, whose
positive timer is decremented through zero down to −0.75 ≥ −2, and one
ready at 0, which reloads to 1/0.8 on firing and is left unchanged by the
update. -/
theorem C5_amended_cooldown_dynamics_witness :
    (((({ stats := steamCannonStats, attack_timer := 5/4 } : AttackComponent).can_attack
        = true →
      (AttackComponent.start_attack
        { stats := steamCannonStats, attack_timer := 5/4 }).attack_timer
        = 1 / steamCannonStats.attack_speed) ∧
     (AttackComponent.update
        { stats := steamCannonStats, attack_timer := 5/4 } 2).attack_timer =
       (if ({ stats := steamCannonStats, attack_timer := 5/4 } :
            AttackComponent).attack_timer > 0 then
          ({ stats := steamCannonStats, attack_timer := 5/4 } :
            AttackComponent).attack_timer - 2
        else ({ stats := steamCannonStats, attack_timer := 5/4 } :
            AttackComponent).attack_timer) ∧
     -2 ≤ (AttackComponent.update
        { stats := steamCannonStats, attack_timer := 5/4 } 2).attack_timer) ∧
    ((({ stats := steamCannonStats } : AttackComponent).can_attack = true →
      (AttackComponent.start_attack { stats := steamCannonStats }).attack_timer
        = 1 / steamCannonStats.attack_speed) ∧
     (AttackComponent.update { stats := steamCannonStats } 2).attack_timer =
       (if ({ stats := steamCannonStats } : AttackComponent).attack_timer > 0 then
          ({ stats := steamCannonStats } : AttackComponent).attack_timer - 2
        else ({ stats := steamCannonStats } : AttackComponent).attack_timer) ∧
     -2 ≤ (AttackComponent.update { stats := steamCannonStats } 2).attack_timer)) :=
  ⟨C5_amended_cooldown_dynamics { stats := steamCannonStats, attack_timer := 5/4 } 2
      (by with_unfolding_all decide) (by with_unfolding_all decide),
   C5_amended_cooldown_dynamics { stats := steamCannonStats } 2
      (by with_unfolding_all decide) (by with_unfolding_all decide)⟩

/-- C1 evaluation of the code at the failing input: on a fresh system with
one subscriber, `emit("evt", immediate=True)` does **not** run the handler
inline — the call log stays empty and the event sits in
`immediate_events` until `process_events()` drains it — while
`emit("evt", immediate=False)` at recursion depth 0 runs the handler
inline during `emit` and leaves both queues empty.  The two branches of
`emit` are exactly swapped relative to the claim (and to the method's own
docstring). -/
theorem C1_emit_immediate_flag_is_inverted :
    ((eventSystemC1.emit "evt" none .NORMAL true).core.call_log = [] ∧
     (eventSystemC1.emit "evt" none .NORMAL true).immediate_events.length = 1 ∧
     ((eventSystemC1.emit "evt" none .NORMAL true).process_events).core.call_log = [7]) ∧
    ((eventSystemC1.emit "evt" none .NORMAL false).core.call_log = [7] ∧
     (eventSystemC1.emit "evt" none .NORMAL false).immediate_events = [] ∧
     (eventSystemC1.emit "evt" none .NORMAL false).event_queue = []) := by
  refine ⟨⟨?_, ?_, ?_⟩, ?_, ?_, ?_⟩ <;> with_unfolding_all decide

/-- C8 evaluation of the code at the failing input: a sniper bullet aimed at
a target 10000 units away (12.5 s of flight at speed 800) is updated once
with `delta_time = 11`, exceeding `max_travel_time = 10` without reaching
its target (its position is still the origin).  The travel-time cap sets
`has_hit = True`, so `Projectile.update` fires `_trigger_impact` and emits
a `projectile_impact` event, and `Tower._update_projectiles` treats the
projectile as a hit: the soldier standing 5 units from the impact point
takes the full 400 damage and dies.  Nothing is discarded silently — the
`elif is_expired()` branch is unreachable for timeouts. -/
theorem C8_expired_projectile_emits_impact_and_damage :
    (projectileC8_expired.movement.travel_time = 11 ∧
     projectileC8_expired.movement.has_hit = true ∧
     projectileC8_expired.movement.position = (0, 0) ∧
     projectileC8_expired.has_exploded = true ∧
     projectileC8_expired.events = ["projectile_impact"]) ∧
    (c8TowerStep.1 = [] ∧
     (c8TowerStep.2.1.map (fun e => e.health.current_health)) = [0] ∧
     (c8TowerStep.2.1.map (fun e => e.health.is_alive)) = [false] ∧
     c8TowerStep.2.2 = ["projectile_impact", "projectile_impact"]) := by
  set_option maxRecDepth 4000 in
  refine ⟨⟨?_, ?_, ?_, ?_, ?_⟩, ?_, ?_, ?_, ?_⟩ <;> with_unfolding_all decide

/-- C4 counterexample: a level-1 Lightning Tower (damage 80, chain 3,
stun 2 s > 0) firing at the first of three soldiers spaced 50 units apart
hits exactly the three of them with damages 80, 64 and 51 (the third is
`int(80 × 0.8²) = int(51.2)`, not the claimed `80 × 0.8² = 51.2`), and the
chain targets are **not** stunned — only the primary target is, while the
claim says every hit target is stunned for s. -/
theorem C4_chain_counterexample :
    (Tower.lightning_attack lightningTowerStats 0 enemiesC4).2 =
      [(0, 80), (1, 64), (2, 51)] ∧
    ((Tower.lightning_attack lightningTowerStats 0 enemiesC4).1.map
      (fun e => e.movement.is_stunned)) = [true, false, false] ∧
    ((Tower.lightning_attack lightningTowerStats 0 enemiesC4).1.map
      (fun e => e.movement.stun_duration)) = [2, 0, 0] ∧
    ((Tower.lightning_attack lightningTowerStats 0 enemiesC4).1.map
      (fun e => e.health.current_health)) = [20, 36, 49] ∧
    ((51 : ℚ) ≠ 80 * (4/5) ^ 2) := by
  refine ⟨?_, ?_, ?_, ?_, ?_⟩ <;> with_unfolding_all decide

/-- `Enemy.take_damage` never touches the movement component. -/
theorem Enemy.take_damage_movement (e : Enemy) (d : Int) (t : DamageType) :
    ((e.take_damage d t).2).movement = e.movement := by
  unfold Enemy.take_damage Enemy.on_death
  split
  · rfl
  · dsimp only
    split <;> rfl

/-- `applyDamageAt` preserves every enemy's movement component. -/
theorem applyDamageAt_movement (en : List Enemy) (i : Nat) (d : Int)
    (t : DamageType) (idx : Nat) :
    (((applyDamageAt en i d t).get? idx).map (·.movement)) =
      ((en.get? idx).map (·.movement)) := by
  unfold applyDamageAt
  cases hg : en.get? i with
  | none => rfl
  | some e =>
    simp only [List.get?_eq_getElem?] at hg ⊢
    have hi : i < en.length := by
      by_contra hcon
      rw [List.getElem?_eq_none (by omega)] at hg
      exact Option.noConfusion hg
    rcases eq_or_ne i idx with rfl | hne
    · simp [List.getElem?_set, hi, hg, Enemy.take_damage_movement]
    · simp [List.getElem?_set, hne]

/-- `lightningChain` touches enemies only through `take_damage`, so every
movement component is preserved. -/
theorem lightningChain_movement (stats : TowerStats) :
    ∀ (k i cur : Nat) (hit : List (Nat × Int)) (en : List Enemy) (idx : Nat),
      (((lightningChain stats k i cur hit en).1.get? idx).map (·.movement)) =
        ((en.get? idx).map (·.movement)) := by
  intro k
  induction k with
  | zero => intro i cur hit en idx; rfl
  | succ k ih =>
    intro i cur hit en idx
    unfold lightningChain
    cases hfind : find_nearest_enemy_for_chain en (enemyPosAt en cur) (hit.map (·.1)) with
    | none => simp [hfind]
    | some nextIdx =>
      simp only [hfind]
      rw [ih]
      exact applyDamageAt_movement ..

/-- Structure of the chain loop's hit list: it extends the accumulator by at
most `k` entries, and the `j`-th appended entry carries damage
`int(damage * 0.8 ** (i + 1 + j))`. -/
theorem lightningChain_hits (stats : TowerStats) :
    ∀ (k i cur : Nat) (hit : List (Nat × Int)) (en : List Enemy),
      ∃ ext : List (Nat × Int),
        (lightningChain stats k i cur hit en).2 = hit ++ ext ∧
        ext.length ≤ k ∧
        ∀ j, j < ext.length →
          (ext.get? j).map (·.2) =
            some (truncQ ((stats.damage : ℚ) * (4/5) ^ (i + 1 + j))) := by
  intro k
  induction k with
  | zero =>
    intro i cur hit en
    exact ⟨[], by simp [lightningChain], by simp, fun j hj => absurd hj (by simp)⟩

  | succ k ih =>
    intro i cur hit en
    unfold lightningChain
    cases hfind : find_nearest_enemy_for_chain en (enemyPosAt en cur) (hit.map (·.1)) with
    | none =>
      exact ⟨[], by simp [hfind], by simp, fun j hj => absurd hj (by simp)⟩
    | some nextIdx =>
      obtain ⟨ext, he, hlen, hval⟩ := ih (i + 1) nextIdx
        (hit ++ [(nextIdx, truncQ ((stats.damage : ℚ) * (4/5) ^ (i + 1)))])
        (applyDamageAt en nextIdx (truncQ ((stats.damage : ℚ) * (4/5) ^ (i + 1)))
          .electric)
      refine ⟨(nextIdx, truncQ ((stats.damage : ℚ) * (4/5) ^ (i + 1))) :: ext,
        ?_, ?_, ?_⟩
      · simp only [hfind]
        rw [he, List.append_assoc, List.singleton_append]
      · simpa using hlen
      · intro j hj
        cases j with
        | zero => simp
        | succ j' =>
          have hv := hval j' (by simpa using hj)
          have hexp : i + 1 + 1 + j' = i + 1 + (j' + 1) := by omega
          rw [hexp] at hv
          simpa using hv

/-- Python truncation of an integer-valued rational is the integer itself. -/
theorem truncQ_intCast (d : Int) : truncQ (d : ℚ) = d := by
  unfold truncQ
  rcases le_or_lt 0 (d : ℚ) with h | h
  · rw [if_pos h]
    have : ((d : ℚ)).floor = d := by
      unfold Rat.floor
      simp [Rat.den_intCast, Rat.num_intCast]
    exact this
  · rw [if_neg (not_le.mpr h)]
    have hcast : (-(d : ℚ)) = ((-d : Int) : ℚ) := by push_cast; ring
    rw [hcast]
    have : (((-d : Int) : ℚ)).floor = -d := by
      unfold Rat.floor
      simp [Rat.den_intCast, Rat.num_intCast]
    rw [this]
    ring

/-- `applyDamageAt` preserves the list length. -/
theorem applyDamageAt_length (en : List Enemy) (i : Nat) (d : Int)
    (t : DamageType) : (applyDamageAt en i d t).length = en.length := by
  unfold applyDamageAt
  cases en.get? i <;> simp

/-- Reading back the entry that `applyEffectAt` rewrote. -/
theorem applyEffectAt_get_self (en : List Enemy) (i : Nat) (eff : String)
    (dur : ℚ) (e : Enemy) (hg : en.get? i = some e) :
    (applyEffectAt en i eff dur).get? i = some (e.apply_effect eff dur) := by
  unfold applyEffectAt
  rw [hg]
  simp only [List.get?_eq_getElem?] at hg ⊢
  have hi : i < en.length := by
    by_contra hcon
    rw [List.getElem?_eq_none (by omega)] at hg
    exact Option.noConfusion hg
  simp [List.getElem?_set, hi]

/-- `applyEffectAt` leaves other indices unchanged. -/
theorem applyEffectAt_get_ne (en : List Enemy) (i : Nat) (eff : String)
    (dur : ℚ) (idx : Nat) (h : idx ≠ i) :
    (applyEffectAt en i eff dur).get? idx = en.get? idx := by
  unfold applyEffectAt
  cases en.get? i with
  | none => rfl
  | some e =>
    simp only [List.get?_eq_getElem?]
    simp [List.getElem?_set, (Ne.symm h)]

/-- Applying the `"stun"` effect routes to `MovementComponent.stun`. -/
theorem apply_effect_stun_movement (e : Enemy) (dur : ℚ) :
    (e.apply_effect "stun" dur).movement = e.movement.stun dur := by
  with_unfolding_all rfl

/-- C4 amended: when a Lightning Tower with stun s > 0 fires at a valid
target among live enemies, it damages the target and stuns **the target
only**, then chains to at most `chain_count` further enemies (at most
`chain+1` hit in total, each found as the nearest not-yet-hit live enemy
within 64 units of the previous one, per the spec-modelled search); the
j-th hit (0-based, j ≥ 1) receives `int(damage × 0.8^j)` electric damage
and no stun — every enemy other than the primary target keeps its movement
component (stun timers included) completely unchanged. -/
theorem C4_amended_lightning (stats : TowerStats) (enemies : List Enemy)
    (targetIdx : Nat) (hstun : 0 < stats.stun_duration)
    (hvalid : targetIdx < enemies.length) :
    ((Tower.lightning_attack stats targetIdx enemies).2.length ≤
        stats.chain_count.toNat + 1) ∧
    (∀ j, j < (Tower.lightning_attack stats targetIdx enemies).2.length →
      ((Tower.lightning_attack stats targetIdx enemies).2.get? j).map (·.2) =
        some (truncQ ((stats.damage : ℚ) * (4/5) ^ j))) ∧
    (((Tower.lightning_attack stats targetIdx enemies).1.get? targetIdx).map
        (fun e => e.movement.is_stunned) = some true) ∧
    (((Tower.lightning_attack stats targetIdx enemies).1.get? targetIdx).map
        (fun e => decide (stats.stun_duration ≤ e.movement.stun_duration)) =
      some true) ∧
    (∀ idx, idx ≠ targetIdx →
      ((Tower.lightning_attack stats targetIdx enemies).1.get? idx).map
          (·.movement) =
        (enemies.get? idx).map (·.movement)) := by
  have hlen1 := applyDamageAt_length enemies targetIdx stats.damage .electric
  have hvalid1 : targetIdx <
      (applyDamageAt enemies targetIdx stats.damage .electric).length := by
    omega
  obtain ⟨e1, he1⟩ : ∃ e1,
      (applyDamageAt enemies targetIdx stats.damage .electric).get? targetIdx =
        some e1 := by
    rw [List.get?_eq_getElem?, List.getElem?_eq_getElem hvalid1]
    exact ⟨_, rfl⟩
  have he2 := applyEffectAt_get_self _ targetIdx "stun" stats.stun_duration e1 he1
  unfold Tower.lightning_attack
  rw [if_pos hstun]
  set EN2 := applyEffectAt (applyDamageAt enemies targetIdx stats.damage .electric)
    targetIdx "stun" stats.stun_duration with hEN2
  obtain ⟨ext, he, hlen, hval⟩ := lightningChain_hits stats
    stats.chain_count.toNat 0 targetIdx [(targetIdx, stats.damage)] EN2
  have hmv := lightningChain_movement stats stats.chain_count.toNat 0 targetIdx
    [(targetIdx, stats.damage)] EN2 targetIdx
  rw [he2] at hmv
  simp only [Option.map_some'] at hmv
  rw [apply_effect_stun_movement] at hmv
  obtain ⟨er, hres, hermv⟩ : ∃ er,
      (lightningChain stats stats.chain_count.toNat 0 targetIdx
        [(targetIdx, stats.damage)] EN2).1.get? targetIdx = some er ∧
      er.movement = e1.movement.stun stats.stun_duration := by
    cases hres : (lightningChain stats stats.chain_count.toNat 0 targetIdx
        [(targetIdx, stats.damage)] EN2).1.get? targetIdx with
    | none => rw [hres] at hmv; simp at hmv
    | some er =>
      rw [hres] at hmv
      simp only [Option.map_some'] at hmv
      exact ⟨er, rfl, Option.some.inj hmv⟩
  refine ⟨?_, ?_, ?_, ?_, ?_⟩
  · rw [he]
    simp only [List.length_append, List.length_singleton]
    omega
  · intro j hj
    rw [he] at hj ⊢
    cases j with
    | zero => simp [truncQ_intCast]
    | succ j2 =>
      have hj2 : j2 < ext.length := by simpa [List.singleton_append] using hj
      have hv := hval j2 hj2
      have hexp : 0 + 1 + j2 = j2 + 1 := by omega
      rw [hexp] at hv
      simpa [List.singleton_append] using hv
  · rw [hres]
    simp [hermv, EnemyMovement.stun]
  · rw [hres]
    simp [hermv, EnemyMovement.stun, le_max_right]
  · intro idx hne
    rw [lightningChain_movement, hEN2, applyEffectAt_get_ne _ _ _ _ _ hne,
      applyDamageAt_movement]

/-- Witness for `C4_amended_lightning` at the concrete C4 scenario. -/
theorem C4_amended_lightning_witness :
    (0 : ℚ) < lightningTowerStats.stun_duration ∧ 0 < enemiesC4.length ∧
    ((Tower.lightning_attack lightningTowerStats 0 enemiesC4).2.length ≤
      lightningTowerStats.chain_count.toNat + 1) :=
  ⟨by with_unfolding_all decide, by with_unfolding_all decide,
    (C4_amended_lightning lightningTowerStats enemiesC4 0
      (by with_unfolding_all decide) (by with_unfolding_all decide)).1⟩

/-- C6 counterexample: on a 5×2 grid whose every walkable step costs 1
(wall at (3,1)), `find_path((0,0) → (4,1))` with the A* algorithm (default
Manhattan heuristic) returns cost 7, while the Dijkstra algorithm returns
cost 5 — not identical.  A* returns a suboptimal cost because an improved
g-score for a node already in the open set is never re-pushed: the stale
heap entry keeps its old cost and parent. -/
theorem C6_astar_dijkstra_costs_differ :
    (∀ x ∈ [(0:Int), 1, 2, 3, 4], ∀ y ∈ [(0:Int), 1],
      gridC6.is_walkable x y = true → gridC6.get_movement_cost x y = .val 1) ∧
    ((Pathfinder.init gridC6).find_path (0, 0) (4, 1) .A_STAR .MANHATTAN {}).1.cost
      = .val 7 ∧
    ((Pathfinder.init gridC6).find_path (0, 0) (4, 1) .DIJKSTRA .MANHATTAN {}).1.cost
      = .val 5 ∧
    ((Pathfinder.init gridC6).find_path (0, 0) (4, 1) .A_STAR .MANHATTAN {}).1.cost
      ≠ ((Pathfinder.init gridC6).find_path (0, 0) (4, 1) .DIJKSTRA .MANHATTAN {}).1.cost := by
  refine ⟨?_, ?_, ?_, ?_⟩ <;> with_unfolding_all decide

/-- C6 amended: `_dijkstra` discards the requested heuristic and is
literally `_a_star` with the `ZERO` heuristic, so on a fresh pathfinder the
`find_path` costs of the Dijkstra algorithm and of the A* algorithm *run
with the Zero heuristic* coincide for every grid, endpoints, heuristic
argument and constraints (and the underlying algorithm results are equal
outright); with the default Manhattan heuristic the costs can differ, as
the counterexample shows. -/
theorem C6_amended_dijkstra_equals_zero_astar (grid : Grid)
    (start goal : Int × Int) (heuristic : HeuristicType)
    (c : PathfindingConstraints) :
    Pathfinder.dijkstra grid start goal heuristic c =
      Pathfinder.a_star grid start goal .ZERO c ∧
    ((Pathfinder.init grid).find_path start goal .DIJKSTRA heuristic c).1.cost =
      ((Pathfinder.init grid).find_path start goal .A_STAR .ZERO c).1.cost := by
  refine ⟨rfl, ?_⟩
  unfold Pathfinder.find_path
  simp only [Pathfinder.init]
  by_cases hv : Pathfinder.validate_positions grid start goal
  · simp [hv, Pathfinder.dijkstra]
  · simp [hv]

/-- C7 counterexample: with capacity 2 (via `set_cache_max_size(2)`), after
inserting the results for keys k1 and k2, a cache **hit** on k1, and a
third insertion k3 at capacity, the code evicts k1 — the first-inserted
entry (`next(iter(dict))`), even though k1 was just used — while the LRU
policy the claim states would refresh k1 on the hit and evict k2.  The
surviving key sets differ, so eviction is FIFO by insertion order, not
least-recently-used, and lookup hits do not refresh recency. -/
theorem C7_cache_eviction_not_lru :
    pfC7_3.cache_hits = 1 ∧
    pfC7_4.path_cache.map Prod.fst = [keyC7_2, keyC7_3] ∧
    lruTraceC7 = [keyC7_1, keyC7_3] ∧
    ((pfC7_4.path_cache.find? (fun e => e.1 = keyC7_1)).isSome = false ∧
      lruTraceC7.contains keyC7_1 = true) ∧
    pfC7_4.path_cache.map Prod.fst ≠ lruTraceC7 := by
  refine ⟨?_, ?_, ?_, ⟨?_, ?_⟩, ?_⟩ <;> with_unfolding_all decide

/-- C7 amended: the cache key is the string built from exactly
`(start, goal, algorithm, heuristic, allow_diagonal)` — all other
constraint fields are ignored —, a fresh pathfinder's capacity is 1000,
`_cache_result` keeps the cache within capacity, eviction at capacity
removes the **first-inserted** entry (FIFO, not LRU), and a cache hit
returns the stored result bumping only `cache_hits`, leaving the cache —
and therefore every entry's position — unchanged. -/
theorem C7_amended_cache_fifo (pf : Pathfinder) (k : String)
    (res entry2 : PathfindingResult)
    (start goal : Int × Int) (algorithm : PathfindingAlgorithm)
    (heuristic : HeuristicType) (c1 c2 : PathfindingConstraints)
    (hbound : pf.path_cache.length ≤ pf.cache_max_size)
    (hcap : 1 ≤ pf.cache_max_size) :
    ((Pathfinder.init pf.grid).cache_max_size = 1000) ∧
    (c1.allow_diagonal = c2.allow_diagonal →
      Pathfinder.generate_cache_key start goal algorithm heuristic c1 =
        Pathfinder.generate_cache_key start goal algorithm heuristic c2) ∧
    ((pf.cache_result k res).path_cache.length ≤ pf.cache_max_size) ∧
    (pf.cache_max_size ≤ pf.path_cache.length →
      (pf.path_cache.find? (fun e => e.1 = k)).isNone →
      (pf.cache_result k res).path_cache = pf.path_cache.tail ++ [(k, res)]) ∧
    (pf.cache_enabled = true →
      Pathfinder.validate_positions pf.grid start goal = true →
      (pf.path_cache.find? (fun e => e.1 =
        Pathfinder.generate_cache_key start goal algorithm heuristic c1)) =
          some (Pathfinder.generate_cache_key start goal algorithm heuristic c1,
            entry2) →
      pf.find_path start goal algorithm heuristic c1 =
        (entry2, { pf with cache_hits := pf.cache_hits + 1 })) := by
  refine ⟨rfl, ?_, ?_, ?_, ?_⟩
  · intro h
    unfold Pathfinder.generate_cache_key
    rw [h]
  · unfold Pathfinder.cache_result
    by_cases hfull : pf.path_cache.length ≥ pf.cache_max_size
    · simp only [hfull, if_true]
      split <;> simp <;> omega
    · simp only [hfull, if_false]
      split <;> simp <;> omega
  · intro hfull hfresh
    unfold Pathfinder.cache_result
    rw [if_pos hfull]
    have : ((pf.path_cache.tail).find? (fun e => e.1 = k)).isNone := by
      rw [Option.isNone_iff_eq_none] at hfresh ⊢
      rw [List.find?_eq_none] at hfresh ⊢
      intro x hx
      exact hfresh x (List.mem_of_mem_tail hx)
    rw [Option.isNone_iff_eq_none] at this
    simp [this]
  · intro hen hv hfind
    unfold Pathfinder.find_path
    rw [hv]
    simp [hen, hfind]

/-- Witness for `C7_amended_cache_fifo` at the concrete C7 scenario state
(cache full with k1 and k2, capacity 2). -/
theorem C7_amended_cache_fifo_witness :
    ((Pathfinder.init pfC7_2.grid).cache_max_size = 1000) ∧
    (({} : PathfindingConstraints).allow_diagonal =
        ({} : PathfindingConstraints).allow_diagonal →
      Pathfinder.generate_cache_key (0, 0) (1, 0) .A_STAR .MANHATTAN {} =
        Pathfinder.generate_cache_key (0, 0) (1, 0) .A_STAR .MANHATTAN {}) ∧
    ((pfC7_2.cache_result keyC7_3 emptyResult).path_cache.length ≤
        pfC7_2.cache_max_size) ∧
    (pfC7_2.cache_max_size ≤ pfC7_2.path_cache.length →
      (pfC7_2.path_cache.find? (fun e => e.1 = keyC7_3)).isNone →
      (pfC7_2.cache_result keyC7_3 emptyResult).path_cache =
        pfC7_2.path_cache.tail ++ [(keyC7_3, emptyResult)]) ∧
    (pfC7_2.cache_enabled = true →
      Pathfinder.validate_positions pfC7_2.grid (0, 0) (1, 0) = true →
      (pfC7_2.path_cache.find? (fun e => e.1 =
        Pathfinder.generate_cache_key (0, 0) (1, 0) .A_STAR .MANHATTAN {})) =
          some (Pathfinder.generate_cache_key (0, 0) (1, 0) .A_STAR .MANHATTAN {},
            (pfC7_0.find_path (0, 0) (1, 0)).1) →
      pfC7_2.find_path (0, 0) (1, 0) .A_STAR .MANHATTAN {} =
        ((pfC7_0.find_path (0, 0) (1, 0)).1,
          { pfC7_2 with cache_hits := pfC7_2.cache_hits + 1 })) :=
  C7_amended_cache_fifo pfC7_2 keyC7_3 emptyResult ((pfC7_0.find_path (0, 0) (1, 0)).1)
    (0, 0) (1, 0) .A_STAR .MANHATTAN {} {}
    (by with_unfolding_all decide) (by with_unfolding_all decide)

/-- **C9.** For every seed and generation parameters, two runs of map
generation with the same seed produce grids whose serialized dictionary
(`Grid.to_dict`) is identical.  In the embedding a run of
`MapGenerator.generate_map` is a pure function of the parameters: the only
randomness source is the single `random.seed(params.seed)`-determined
stream threaded through every phase (modelled by `PyRandom`), so any two
runs started from the same seed consume identical draws and build
identical grids. -/
theorem C9_map_generation_deterministic (params : GenerationParams)
    (run1 run2 : GridDict)
    (h1 : run1 = (MapGen.generate_map params).grid.to_dict)
    (h2 : run2 = (MapGen.generate_map params).grid.to_dict) :
    run1 = run2 :=
  h1.trans h2.symm

set_option maxRecDepth 20000

/-- Witness for C9 at the spec's own instance — seed 12345, theme
IndustrialFactory, default 24×16 grid — together with a concrete kernel
evaluation of a full generation run on a small grid (its serialized
width), showing the embedded generator is executable end to end. -/
theorem C9_map_generation_deterministic_witness :
    (MapGen.generate_map paramsE6).grid.to_dict =
      (MapGen.generate_map paramsE6).grid.to_dict ∧
    (MapGen.generate_map paramsSmall).grid.to_dict.width = 6 :=
  ⟨C9_map_generation_deterministic paramsE6 _ _ rfl rfl,
    by with_unfolding_all decide⟩
